import Mathlib

/-!
Verification of the correlative-numbering, lifecycle and identity-propagation
core of the notarial travel-permit system (`app.py`), as a shallow embedding.

Modelling conventions:
  * Python strings are modelled as lists of characters (`Str`), so that the
    string transformations of the source (`strip`, `upper`, digit filtering,
    SQL `REPLACE(x, ' ', '')`) become list functions with provable algebra.
  * A SQLite column value is a `Val`: TEXT, INTEGER, or NULL.  The
    `hermanos_json` column, which holds a JSON-encoded sibling array, is
    modelled by its decoded value (`Val.herm`) since `json.dumps`/`json.loads`
    round-trip; a raw `Val.s` in that column stands for text that does not
    decode to a list (the source skips such rows).
  * The `permisos` table is a `List Permiso` (one structure field per column),
    the `correlativos` table a `List (Int × Int)` keyed by year, and the
    `doc_ocultos` table a `List Oculto`.
  * `CURRENT_TIMESTAMP` / `datetime.now()` appear as an explicit `now`
    parameter.  Error messages not relevant to any property are abbreviated.
-/

abbrev Str := List Char

/-- Concrete character-list literal. -/
def lit (s : String) : Str := s.toList

/-- Python `str.strip()`: drop whitespace from both ends. -/
def pytrim (s : Str) : Str :=
  List.rdropWhile Char.isWhitespace (s.dropWhile Char.isWhitespace)

/-- Python `str.upper()` (ASCII, which covers every value the source compares). -/
def pyupper (s : Str) : Str := s.map Char.toUpper

/-- SQL `REPLACE(x, ' ', '')`: remove every space. -/
def replSp (s : Str) : Str := s.filter (fun c => c ≠ ' ')

/-- `app.py` `_norm_doc`: strip, then collapse to the digit subsequence when at
least 8 digits are present (`only_digits if len(only_digits) >= 8 else x`). -/
def _norm_doc (x : Str) : Str :=
  let x := pytrim x
  let only_digits := x.filter Char.isDigit
  if 8 ≤ only_digits.length then only_digits else x

/-- One entry of the JSON sibling array stored in `hermanos_json`.  String
fields; an absent key is the empty string (the source reads them with
`h.get(...) or ...`, which treats `None` and `""` alike). -/
structure Hermano where
  nombre : Str := []
  sexo : Str := []
  doc_tipo : Str := []
  doc_num : Str := []
  dni : Str := []
  fnac : Str := []
  nacionalidad : Str := []
deriving DecidableEq

/-- A SQLite column value. -/
inductive Val where
  | s : Str → Val
  | i : Int → Val
  | null : Val
  | herm : List Hermano → Val
deriving DecidableEq

/-- Python `str(...)` of a fetched column value (`str(None) = "None"`).  The
`herm` case never reaches `str` in the modelled paths. -/
def pyStr : Val → Str
  | Val.s v => v
  | Val.i n => (toString n).toList
  | Val.null => lit "None"
  | Val.herm _ => []

/-- SQL text of a column value, `none` for NULL. -/
def valText : Val → Option Str
  | Val.s v => some v
  | Val.i n => some ((toString n).toList)
  | Val.null => none
  | Val.herm _ => none

/-- One row of the `permisos` table (`CREATE TABLE permisos` in `init_db`
plus the columns added by `migrate_db`). -/
structure Permiso where
  id : Int
  anio : Val := Val.i 0
  numero : Val := Val.i 0
  nsc : Val := Val.s (lit "NSC")
  fecha_registro : Val := Val.s []
  ciudad : Val := Val.s []
  notario : Val := Val.s []
  padre_nombre : Val := Val.s []
  padre_dni : Val := Val.s []
  padre_estado_civil : Val := Val.s []
  padre_direccion : Val := Val.s []
  padre_distrito : Val := Val.s []
  padre_provincia : Val := Val.s []
  padre_departamento : Val := Val.s []
  madre_nombre : Val := Val.s []
  madre_dni : Val := Val.s []
  madre_estado_civil : Val := Val.s []
  madre_direccion : Val := Val.s []
  madre_distrito : Val := Val.s []
  madre_provincia : Val := Val.s []
  madre_departamento : Val := Val.s []
  menor_nombre : Val := Val.s []
  menor_dni : Val := Val.s []
  menor_fnac : Val := Val.s []
  sexo_menor : Val := Val.s []
  tipo_viaje : Val := Val.s []
  firma_quien : Val := Val.s []
  origen : Val := Val.s []
  destino : Val := Val.s []
  vias : Val := Val.s []
  empresa : Val := Val.s []
  salida : Val := Val.s []
  retorno : Val := Val.s []
  acompanante : Val := Val.s []
  tercero_nombre : Val := Val.s []
  tercero_dni : Val := Val.s []
  motivo : Val := Val.s []
  ciudad_evento : Val := Val.s []
  fecha_evento : Val := Val.s []
  organizador : Val := Val.s []
  archivo_generado : Val := Val.s []
  estado : Val := Val.s (lit "EMITIDO")
  updated_at : Val := Val.s []
  version : Val := Val.i 1
  anulado_at : Val := Val.s []
  anulado_motivo : Val := Val.s []
  anulado_por : Val := Val.s []
  padre_doc_tipo : Val := Val.s []
  padre_doc_num : Val := Val.s []
  padre_nacionalidad : Val := Val.s []
  madre_doc_tipo : Val := Val.s []
  madre_doc_num : Val := Val.s []
  madre_nacionalidad : Val := Val.s []
  menor_doc_tipo : Val := Val.s []
  menor_doc_num : Val := Val.s []
  menor_nacionalidad : Val := Val.s []
  hermanos_json : Val := Val.s []
  viaja_solo : Val := Val.i 0
  recibe_si : Val := Val.s []
  rec_nombre : Val := Val.s []
  rec_doc_tipo : Val := Val.s []
  rec_doc_num : Val := Val.s []
  rec_doc_pais : Val := Val.s []
  rec_list_json : Val := Val.s []
  rol_acompanante : Val := Val.s []
  acomp1_nombre : Val := Val.s []
  acomp1_dni : Val := Val.s []
  acomp_count : Val := Val.i 0
  terceros_json : Val := Val.s []
deriving DecidableEq

/-- A Python dict of column values, as passed to `update_permiso` /
`save_permiso_registro` (`data`). -/
abbrev DataMap := List (Str × Val)

/-- Python `data.get(k, "")`. -/
def dget (d : DataMap) (k : Str) : Val :=
  match d.find? (fun kv => kv.1 == k) with
  | some kv => kv.2
  | none => Val.s []

/-- Whether the key is present in the dict at all. -/
def dhas (d : DataMap) (k : Str) : Bool := d.any (fun kv => kv.1 == k)

/-- The fixed column list of `update_permiso`'s SET clause, in source order.
The source lists `recibe_si`, `rec_nombre`, `rec_doc_tipo`, `rec_doc_num`,
`rec_doc_pais` twice; SQLite applies the rightmost duplicate assignment, and
both assignments carry the same `data.get(f, "")` value, so the duplicates are
value-irrelevant.  They are kept here to mirror the source. -/
def updFields : List Str :=
  [lit "ciudad", lit "notario",
   lit "padre_nombre", lit "padre_dni", lit "padre_estado_civil",
   lit "padre_direccion", lit "padre_distrito", lit "padre_provincia",
   lit "padre_departamento",
   lit "madre_nombre", lit "madre_dni", lit "madre_estado_civil",
   lit "madre_direccion", lit "madre_distrito", lit "madre_provincia",
   lit "madre_departamento",
   lit "menor_nombre", lit "menor_dni", lit "menor_fnac", lit "sexo_menor",
   lit "tipo_viaje", lit "firma_quien", lit "origen", lit "destino",
   lit "vias", lit "empresa", lit "salida", lit "retorno",
   lit "acompanante", lit "tercero_nombre", lit "tercero_dni",
   lit "rol_acompanante", lit "acomp1_nombre", lit "acomp1_dni",
   lit "acomp_count",
   lit "motivo", lit "ciudad_evento", lit "fecha_evento", lit "organizador",
   lit "recibe_si", lit "rec_nombre", lit "rec_doc_tipo", lit "rec_doc_num",
   lit "rec_doc_pais",
   lit "archivo_generado", lit "estado", lit "version",
   lit "anulado_at", lit "anulado_motivo", lit "anulado_por",
   lit "padre_doc_tipo", lit "padre_doc_num", lit "padre_nacionalidad",
   lit "madre_doc_tipo", lit "madre_doc_num", lit "madre_nacionalidad",
   lit "menor_doc_tipo", lit "menor_doc_num", lit "menor_nacionalidad",
   lit "viaja_solo", lit "recibe_si", lit "rec_nombre", lit "rec_doc_tipo",
   lit "rec_doc_num", lit "rec_doc_pais", lit "rec_list_json",
   lit "hermanos_json", lit "terceros_json"]

/-- Column access by name, for stating facts about the whole column list. -/
def Permiso.col (p : Permiso) (c : Str) : Val :=
  if c = lit "id" then Val.i p.id
  else if c = lit "anio" then p.anio
  else if c = lit "numero" then p.numero
  else if c = lit "nsc" then p.nsc
  else if c = lit "fecha_registro" then p.fecha_registro
  else if c = lit "ciudad" then p.ciudad
  else if c = lit "notario" then p.notario
  else if c = lit "padre_nombre" then p.padre_nombre
  else if c = lit "padre_dni" then p.padre_dni
  else if c = lit "padre_estado_civil" then p.padre_estado_civil
  else if c = lit "padre_direccion" then p.padre_direccion
  else if c = lit "padre_distrito" then p.padre_distrito
  else if c = lit "padre_provincia" then p.padre_provincia
  else if c = lit "padre_departamento" then p.padre_departamento
  else if c = lit "madre_nombre" then p.madre_nombre
  else if c = lit "madre_dni" then p.madre_dni
  else if c = lit "madre_estado_civil" then p.madre_estado_civil
  else if c = lit "madre_direccion" then p.madre_direccion
  else if c = lit "madre_distrito" then p.madre_distrito
  else if c = lit "madre_provincia" then p.madre_provincia
  else if c = lit "madre_departamento" then p.madre_departamento
  else if c = lit "menor_nombre" then p.menor_nombre
  else if c = lit "menor_dni" then p.menor_dni
  else if c = lit "menor_fnac" then p.menor_fnac
  else if c = lit "sexo_menor" then p.sexo_menor
  else if c = lit "tipo_viaje" then p.tipo_viaje
  else if c = lit "firma_quien" then p.firma_quien
  else if c = lit "origen" then p.origen
  else if c = lit "destino" then p.destino
  else if c = lit "vias" then p.vias
  else if c = lit "empresa" then p.empresa
  else if c = lit "salida" then p.salida
  else if c = lit "retorno" then p.retorno
  else if c = lit "acompanante" then p.acompanante
  else if c = lit "tercero_nombre" then p.tercero_nombre
  else if c = lit "tercero_dni" then p.tercero_dni
  else if c = lit "motivo" then p.motivo
  else if c = lit "ciudad_evento" then p.ciudad_evento
  else if c = lit "fecha_evento" then p.fecha_evento
  else if c = lit "organizador" then p.organizador
  else if c = lit "archivo_generado" then p.archivo_generado
  else if c = lit "estado" then p.estado
  else if c = lit "updated_at" then p.updated_at
  else if c = lit "version" then p.version
  else if c = lit "anulado_at" then p.anulado_at
  else if c = lit "anulado_motivo" then p.anulado_motivo
  else if c = lit "anulado_por" then p.anulado_por
  else if c = lit "padre_doc_tipo" then p.padre_doc_tipo
  else if c = lit "padre_doc_num" then p.padre_doc_num
  else if c = lit "padre_nacionalidad" then p.padre_nacionalidad
  else if c = lit "madre_doc_tipo" then p.madre_doc_tipo
  else if c = lit "madre_doc_num" then p.madre_doc_num
  else if c = lit "madre_nacionalidad" then p.madre_nacionalidad
  else if c = lit "menor_doc_tipo" then p.menor_doc_tipo
  else if c = lit "menor_doc_num" then p.menor_doc_num
  else if c = lit "menor_nacionalidad" then p.menor_nacionalidad
  else if c = lit "hermanos_json" then p.hermanos_json
  else if c = lit "viaja_solo" then p.viaja_solo
  else if c = lit "recibe_si" then p.recibe_si
  else if c = lit "rec_nombre" then p.rec_nombre
  else if c = lit "rec_doc_tipo" then p.rec_doc_tipo
  else if c = lit "rec_doc_num" then p.rec_doc_num
  else if c = lit "rec_doc_pais" then p.rec_doc_pais
  else if c = lit "rec_list_json" then p.rec_list_json
  else if c = lit "rol_acompanante" then p.rol_acompanante
  else if c = lit "acomp1_nombre" then p.acomp1_nombre
  else if c = lit "acomp1_dni" then p.acomp1_dni
  else if c = lit "acomp_count" then p.acomp_count
  else if c = lit "terceros_json" then p.terceros_json
  else Val.null

/-- `app.py` `update_permiso(pid, data)`: a single SQL UPDATE that sets every
column in `updFields` to `data.get(field, "")` and sets `updated_at` to the
current time.  `id`, `anio`, `numero`, `nsc`, `fecha_registro` are not in the
SET clause and are untouched. -/
def update_permiso (now : Str) (d : DataMap) (p : Permiso) : Permiso :=
  { p with
    ciudad := dget d (lit "ciudad"),
    notario := dget d (lit "notario"),
    padre_nombre := dget d (lit "padre_nombre"),
    padre_dni := dget d (lit "padre_dni"),
    padre_estado_civil := dget d (lit "padre_estado_civil"),
    padre_direccion := dget d (lit "padre_direccion"),
    padre_distrito := dget d (lit "padre_distrito"),
    padre_provincia := dget d (lit "padre_provincia"),
    padre_departamento := dget d (lit "padre_departamento"),
    madre_nombre := dget d (lit "madre_nombre"),
    madre_dni := dget d (lit "madre_dni"),
    madre_estado_civil := dget d (lit "madre_estado_civil"),
    madre_direccion := dget d (lit "madre_direccion"),
    madre_distrito := dget d (lit "madre_distrito"),
    madre_provincia := dget d (lit "madre_provincia"),
    madre_departamento := dget d (lit "madre_departamento"),
    menor_nombre := dget d (lit "menor_nombre"),
    menor_dni := dget d (lit "menor_dni"),
    menor_fnac := dget d (lit "menor_fnac"),
    sexo_menor := dget d (lit "sexo_menor"),
    tipo_viaje := dget d (lit "tipo_viaje"),
    firma_quien := dget d (lit "firma_quien"),
    origen := dget d (lit "origen"),
    destino := dget d (lit "destino"),
    vias := dget d (lit "vias"),
    empresa := dget d (lit "empresa"),
    salida := dget d (lit "salida"),
    retorno := dget d (lit "retorno"),
    acompanante := dget d (lit "acompanante"),
    tercero_nombre := dget d (lit "tercero_nombre"),
    tercero_dni := dget d (lit "tercero_dni"),
    rol_acompanante := dget d (lit "rol_acompanante"),
    acomp1_nombre := dget d (lit "acomp1_nombre"),
    acomp1_dni := dget d (lit "acomp1_dni"),
    acomp_count := dget d (lit "acomp_count"),
    motivo := dget d (lit "motivo"),
    ciudad_evento := dget d (lit "ciudad_evento"),
    fecha_evento := dget d (lit "fecha_evento"),
    organizador := dget d (lit "organizador"),
    recibe_si := dget d (lit "recibe_si"),
    rec_nombre := dget d (lit "rec_nombre"),
    rec_doc_tipo := dget d (lit "rec_doc_tipo"),
    rec_doc_num := dget d (lit "rec_doc_num"),
    rec_doc_pais := dget d (lit "rec_doc_pais"),
    archivo_generado := dget d (lit "archivo_generado"),
    estado := dget d (lit "estado"),
    version := dget d (lit "version"),
    anulado_at := dget d (lit "anulado_at"),
    anulado_motivo := dget d (lit "anulado_motivo"),
    anulado_por := dget d (lit "anulado_por"),
    padre_doc_tipo := dget d (lit "padre_doc_tipo"),
    padre_doc_num := dget d (lit "padre_doc_num"),
    padre_nacionalidad := dget d (lit "padre_nacionalidad"),
    madre_doc_tipo := dget d (lit "madre_doc_tipo"),
    madre_doc_num := dget d (lit "madre_doc_num"),
    madre_nacionalidad := dget d (lit "madre_nacionalidad"),
    menor_doc_tipo := dget d (lit "menor_doc_tipo"),
    menor_doc_num := dget d (lit "menor_doc_num"),
    menor_nacionalidad := dget d (lit "menor_nacionalidad"),
    viaja_solo := dget d (lit "viaja_solo"),
    rec_list_json := dget d (lit "rec_list_json"),
    hermanos_json := dget d (lit "hermanos_json"),
    terceros_json := dget d (lit "terceros_json"),
    updated_at := Val.s now }

/-- Python `dict(perm)` for a fetched row: every column, keyed by name. -/
def permisoToData (p : Permiso) : DataMap :=
  [(lit "id", Val.i p.id), (lit "anio", p.anio), (lit "numero", p.numero),
   (lit "nsc", p.nsc), (lit "fecha_registro", p.fecha_registro),
   (lit "ciudad", p.ciudad), (lit "notario", p.notario),
   (lit "padre_nombre", p.padre_nombre), (lit "padre_dni", p.padre_dni),
   (lit "padre_estado_civil", p.padre_estado_civil),
   (lit "padre_direccion", p.padre_direccion),
   (lit "padre_distrito", p.padre_distrito),
   (lit "padre_provincia", p.padre_provincia),
   (lit "padre_departamento", p.padre_departamento),
   (lit "madre_nombre", p.madre_nombre), (lit "madre_dni", p.madre_dni),
   (lit "madre_estado_civil", p.madre_estado_civil),
   (lit "madre_direccion", p.madre_direccion),
   (lit "madre_distrito", p.madre_distrito),
   (lit "madre_provincia", p.madre_provincia),
   (lit "madre_departamento", p.madre_departamento),
   (lit "menor_nombre", p.menor_nombre), (lit "menor_dni", p.menor_dni),
   (lit "menor_fnac", p.menor_fnac), (lit "sexo_menor", p.sexo_menor),
   (lit "tipo_viaje", p.tipo_viaje), (lit "firma_quien", p.firma_quien),
   (lit "origen", p.origen), (lit "destino", p.destino),
   (lit "vias", p.vias), (lit "empresa", p.empresa),
   (lit "salida", p.salida), (lit "retorno", p.retorno),
   (lit "acompanante", p.acompanante),
   (lit "tercero_nombre", p.tercero_nombre),
   (lit "tercero_dni", p.tercero_dni),
   (lit "motivo", p.motivo), (lit "ciudad_evento", p.ciudad_evento),
   (lit "fecha_evento", p.fecha_evento), (lit "organizador", p.organizador),
   (lit "archivo_generado", p.archivo_generado), (lit "estado", p.estado),
   (lit "updated_at", p.updated_at), (lit "version", p.version),
   (lit "anulado_at", p.anulado_at),
   (lit "anulado_motivo", p.anulado_motivo),
   (lit "anulado_por", p.anulado_por),
   (lit "padre_doc_tipo", p.padre_doc_tipo),
   (lit "padre_doc_num", p.padre_doc_num),
   (lit "padre_nacionalidad", p.padre_nacionalidad),
   (lit "madre_doc_tipo", p.madre_doc_tipo),
   (lit "madre_doc_num", p.madre_doc_num),
   (lit "madre_nacionalidad", p.madre_nacionalidad),
   (lit "menor_doc_tipo", p.menor_doc_tipo),
   (lit "menor_doc_num", p.menor_doc_num),
   (lit "menor_nacionalidad", p.menor_nacionalidad),
   (lit "hermanos_json", p.hermanos_json),
   (lit "viaja_solo", p.viaja_solo), (lit "recibe_si", p.recibe_si),
   (lit "rec_nombre", p.rec_nombre), (lit "rec_doc_tipo", p.rec_doc_tipo),
   (lit "rec_doc_num", p.rec_doc_num), (lit "rec_doc_pais", p.rec_doc_pais),
   (lit "rec_list_json", p.rec_list_json),
   (lit "rol_acompanante", p.rol_acompanante),
   (lit "acomp1_nombre", p.acomp1_nombre),
   (lit "acomp1_dni", p.acomp1_dni), (lit "acomp_count", p.acomp_count),
   (lit "terceros_json", p.terceros_json)]

/-- The `correlativos` table: `anio INTEGER PRIMARY KEY, numero INTEGER`. -/
abbrev CorrelTable := List (Int × Int)

/-- `SELECT numero FROM correlativos WHERE anio = ?`. -/
def lookupCorrel (anio : Int) (t : CorrelTable) : Option Int :=
  (t.find? (fun r => r.1 == anio)).map Prod.snd

/-- `app.py` `get_next_correlativo(anio)`: validates the year range, then
inside one `BEGIN IMMEDIATE` transaction reads the year's counter row
(issuing 1 and inserting the row when absent), or issues `numero + 1` and
writes it back.  The in-process lock and transaction serialize calls, so the
sequential model is the source's behaviour. -/
def get_next_correlativo (anio : Int) (t : CorrelTable) :
    Except Str (Int × CorrelTable) :=
  if 2000 ≤ anio ∧ anio ≤ 2100 then
    match t.find? (fun r => r.1 == anio) with
    | none => .ok (1, (anio, 1) :: t)
    | some r =>
        .ok (r.2 + 1, t.map (fun q => if q.1 == anio then (q.1, r.2 + 1) else q))
  else .error (lit "Año fuera de rango válido (2000-2100)")

/-- `N` sequential calls of `get_next_correlativo` for one year, collecting
the issued numbers. -/
def issueSeq (anio : Int) (t : CorrelTable) : Nat → Except Str (List Int × CorrelTable)
  | 0 => .ok ([], t)
  | Nat.succ n =>
    match get_next_correlativo anio t with
    | .error e => .error e
    | .ok (x, t1) =>
      match issueSeq anio t1 n with
      | .error e => .error e
      | .ok (xs, t2) => .ok (x :: xs, t2)

/-- Python `data.get(k, defaults.get(k, ""))` with the `save_permiso_registro`
defaults (`nsc`, `fecha_registro`, `estado`, `updated_at`, `version`,
`anulado_at`, `anulado_motivo`, `anulado_por`). -/
def saveGet (now : Str) (d : DataMap) (k : Str) : Val :=
  match d.find? (fun kv => kv.1 == k) with
  | some kv => kv.2
  | none =>
    if k = lit "nsc" then Val.s (lit "NSC")
    else if k = lit "fecha_registro" then Val.s now
    else if k = lit "estado" then Val.s (lit "EMITIDO")
    else if k = lit "updated_at" then Val.s now
    else if k = lit "version" then Val.i 1
    else if k = lit "anulado_at" then Val.s []
    else if k = lit "anulado_motivo" then Val.s []
    else if k = lit "anulado_por" then Val.s []
    else Val.s []

/-- The row built by `save_permiso_registro(data)`'s INSERT: every column
except `id` is named in its column list (several `rec_*` names twice, with
the same bound value, which SQLite accepts first-wins), each taking
`data.get(k, defaults.get(k, ""))`.  `newId` stands for the AUTOINCREMENT
id. -/
def savedPermiso (now : Str) (newId : Int) (d : DataMap) : Permiso :=
  let g := fun k => saveGet now d (lit k)
  { id := newId, anio := g "anio", numero := g "numero", nsc := g "nsc",
      fecha_registro := g "fecha_registro", ciudad := g "ciudad",
      notario := g "notario",
      padre_nombre := g "padre_nombre", padre_dni := g "padre_dni",
      padre_estado_civil := g "padre_estado_civil",
      padre_direccion := g "padre_direccion",
      padre_distrito := g "padre_distrito",
      padre_provincia := g "padre_provincia",
      padre_departamento := g "padre_departamento",
      madre_nombre := g "madre_nombre", madre_dni := g "madre_dni",
      madre_estado_civil := g "madre_estado_civil",
      madre_direccion := g "madre_direccion",
      madre_distrito := g "madre_distrito",
      madre_provincia := g "madre_provincia",
      madre_departamento := g "madre_departamento",
      menor_nombre := g "menor_nombre", menor_dni := g "menor_dni",
      menor_fnac := g "menor_fnac", sexo_menor := g "sexo_menor",
      tipo_viaje := g "tipo_viaje", firma_quien := g "firma_quien",
      origen := g "origen", destino := g "destino", vias := g "vias",
      empresa := g "empresa", salida := g "salida", retorno := g "retorno",
      acompanante := g "acompanante", tercero_nombre := g "tercero_nombre",
      tercero_dni := g "tercero_dni",
      rol_acompanante := g "rol_acompanante",
      acomp1_nombre := g "acomp1_nombre", acomp1_dni := g "acomp1_dni",
      acomp_count := g "acomp_count", viaja_solo := g "viaja_solo",
      recibe_si := g "recibe_si", rec_nombre := g "rec_nombre",
      rec_doc_tipo := g "rec_doc_tipo", rec_doc_num := g "rec_doc_num",
      rec_doc_pais := g "rec_doc_pais", rec_list_json := g "rec_list_json",
      motivo := g "motivo", ciudad_evento := g "ciudad_evento",
      fecha_evento := g "fecha_evento", organizador := g "organizador",
      hermanos_json := g "hermanos_json", terceros_json := g "terceros_json",
      archivo_generado := g "archivo_generado", estado := g "estado",
      updated_at := g "updated_at", version := g "version",
      anulado_at := g "anulado_at", anulado_motivo := g "anulado_motivo",
      anulado_por := g "anulado_por",
      padre_doc_tipo := g "padre_doc_tipo", padre_doc_num := g "padre_doc_num",
      padre_nacionalidad := g "padre_nacionalidad",
      madre_doc_tipo := g "madre_doc_tipo", madre_doc_num := g "madre_doc_num",
      madre_nacionalidad := g "madre_nacionalidad",
      menor_doc_tipo := g "menor_doc_tipo", menor_doc_num := g "menor_doc_num",
      menor_nacionalidad := g "menor_nacionalidad" }

/-- `app.py` `save_permiso_registro(data)`: inserts `savedPermiso`.  The
table's `UNIQUE(anio, numero)` constraint rejects the insert when a row with
the same non-NULL pair already exists (SQLite UNIQUE treats NULLs as
distinct). -/
def save_permiso_registro (now : Str) (newId : Int) (d : DataMap)
    (db : List Permiso) : Except Str (List Permiso) :=
  let p := savedPermiso now newId d
  if db.any (fun q =>
      q.anio == p.anio && q.numero == p.numero &&
      !(p.anio == Val.null) && !(p.numero == Val.null)) then
    .error (lit "UNIQUE constraint failed: permisos.anio, permisos.numero")
  else .ok (db ++ [p])

/-- `WHERE REPLACE(col, ' ', '') = ?`: NULL never matches. -/
def matchCol (old_n : Str) (v : Val) : Bool :=
  match valText v with
  | some s => replSp s == old_n
  | none => false

/-- `WHERE REPLACE(COALESCE(col, ''), ' ', '') = ?` (the `admin_actualizar_doc`
variant): NULL is compared as the empty string. -/
def matchColC (old_n : Str) (v : Val) : Bool :=
  replSp ((valText v).getD []) == old_n

/-- The document-number column of the role's UPDATE.  The source dispatches
`if rol == "PADRE" ... elif rol == "MADRE" ... else` (any other role hits the
MENOR columns). -/
def rolDocNum (rol : Str) (p : Permiso) : Val :=
  if rol = lit "PADRE" then p.padre_doc_num
  else if rol = lit "MADRE" then p.madre_doc_num
  else p.menor_doc_num

/-- The legacy mirror column (`*_dni`) of the role's UPDATE. -/
def rolDni (rol : Str) (p : Permiso) : Val :=
  if rol = lit "PADRE" then p.padre_dni
  else if rol = lit "MADRE" then p.madre_dni
  else p.menor_dni

/-- The SET clause of the role's UPDATE: both the document column and its
legacy mirror receive the new number, and `updated_at` the current time. -/
def setRolDoc (rol : Str) (new_n : Str) (now : Str) (p : Permiso) : Permiso :=
  if rol = lit "PADRE" then
    { p with padre_doc_num := Val.s new_n, padre_dni := Val.s new_n,
             updated_at := Val.s now }
  else if rol = lit "MADRE" then
    { p with madre_doc_num := Val.s new_n, madre_dni := Val.s new_n,
             updated_at := Val.s now }
  else
    { p with menor_doc_num := Val.s new_n, menor_dni := Val.s new_n,
             updated_at := Val.s now }

/-- The WHERE clause of `propagar_cambio_doc`'s UPDATE for one row. -/
def rowMatches (rol old_n : Str) (p : Permiso) : Bool :=
  matchCol old_n (rolDocNum rol p) || matchCol old_n (rolDni rol p)

/-- The WHERE clause of `admin_actualizar_doc`'s column UPDATE for one row. -/
def rowMatchesC (rol old_n : Str) (p : Permiso) : Bool :=
  matchColC old_n (rolDocNum rol p) || matchColC old_n (rolDni rol p)

/-- `app.py` `propagar_cambio_doc(rol, old_doc, new_doc)`: normalizes the role
and both documents, returns 0 when either is empty or they are equal, and
otherwise runs one UPDATE over all permits of that role; the returned count is
the cursor's rowcount (the number of WHERE-matching rows). -/
def propagar_cambio_doc (now : Str) (rol old_doc new_doc : Str)
    (db : List Permiso) : Int × List Permiso :=
  let rolU := pyupper rol
  let old_n := _norm_doc old_doc
  let new_n := _norm_doc new_doc
  if old_n = [] ∨ new_n = [] ∨ old_n = new_n then (0, db)
  else
    ((db.countP (fun p => rowMatches rolU old_n p) : Int),
     db.map (fun p => if rowMatches rolU old_n p then setRolDoc rolU new_n now p else p))

/-- `(h.get("doc_num") or h.get("dni") or "").strip()`. -/
def hermanoDocRaw (h : Hermano) : Str :=
  pytrim (if h.doc_num ≠ [] then h.doc_num else if h.dni ≠ [] then h.dni else [])

/-- The per-sibling match test of `_update_hermano_doc_json`. -/
def hermMatch (old_n : Str) (h : Hermano) : Bool :=
  _norm_doc (hermanoDocRaw h) == old_n

/-- The per-sibling patch: a matching sibling gets `doc_num = new_n`
(`# normalizamos siempre en doc_num`); others are untouched. -/
def hermStep (old_n new_n : Str) (h : Hermano) : Hermano :=
  if hermMatch old_n h then { h with doc_num := new_n } else h

/-- `json.loads(hermanos_json)` when it yields a list; `none` on a decode
error or a non-list value (the source `continue`s on those). -/
def parseHermanos : Val → Option (List Hermano)
  | Val.herm l => some l
  | _ => none

/-- `COALESCE(hermanos_json, '') <> ''` for the row-selection query. -/
def hermNonEmptyJson : Val → Bool
  | Val.s v => !(v == [])
  | Val.null => false
  | Val.i _ => true
  | Val.herm _ => true

/-- Whether `_update_hermano_doc_json` rewrites this row: selected by the
query, decodes to a list, and some sibling matches. -/
def hermRowChanged (old_n : Str) (p : Permiso) : Bool :=
  hermNonEmptyJson p.hermanos_json &&
    (match parseHermanos p.hermanos_json with
     | some arr => arr.any (hermMatch old_n)
     | none => false)

/-- `app.py` `_update_hermano_doc_json(old_doc, new_doc)`: scans every permit
with a non-empty `hermanos_json`, patches each matching sibling's `doc_num`,
re-encodes, stamps `updated_at`, and counts the modified permits. -/
def _update_hermano_doc_json (now : Str) (old_doc new_doc : Str)
    (db : List Permiso) : Int × List Permiso :=
  let old_n := _norm_doc old_doc
  let new_n := _norm_doc new_doc
  if old_n = [] ∨ new_n = [] ∨ old_n = new_n then (0, db)
  else
    ((db.countP (hermRowChanged old_n) : Int),
     db.map (fun p =>
       if hermRowChanged old_n p then
         { p with
           hermanos_json :=
             Val.herm (((parseHermanos p.hermanos_json).getD []).map (hermStep old_n new_n)),
           updated_at := Val.s now }
       else p))

/-- One row of the `doc_ocultos` table (suppressed-identity markers), unique
on `(rol, doc_num)`. -/
structure Oculto where
  rol : Str
  doc_num : Str
  motivo : Str := []
  creado_por : Str := []
  creado_at : Str := []
deriving DecidableEq

/-- `app.py` `is_doc_oculto(rol, doc_num)`. -/
def is_doc_oculto (rol doc_num : Str) (t : List Oculto) : Bool :=
  let rolU := pyupper rol
  let docU := pyupper (pytrim doc_num)
  if rolU = [] ∨ docU = [] then false
  else t.any (fun o => o.rol == rolU && o.doc_num == docU)

/-- `app.py` `ocultar_doc(rol, doc_num, motivo, creado_por)`: `INSERT OR
IGNORE` into `doc_ocultos`, so an existing `(rol, doc_num)` row is kept. -/
def ocultar_doc (now : Str) (rol doc_num motivo creado_por : Str)
    (t : List Oculto) : (Bool × Str) × List Oculto :=
  let rolU := pyupper rol
  let docU := pyupper (pytrim doc_num)
  if rolU = [] ∨ docU = [] then ((false, lit "Falta rol o documento."), t)
  else if t.any (fun o => o.rol == rolU && o.doc_num == docU) then
    ((true, lit "Documento ocultado."), t)
  else
    ((true, lit "Documento ocultado."),
     t ++ [{ rol := rolU, doc_num := docU, motivo := pyupper (pytrim motivo),
             creado_por := pyupper (if creado_por = [] then lit "USUARIO" else creado_por),
             creado_at := now }])

/-- `app.py` `mostrar_doc(rol, doc_num)`: DELETE the `(rol, doc_num)` row. -/
def mostrar_doc (rol doc_num : Str) (t : List Oculto) :
    (Bool × Str) × List Oculto :=
  let rolU := pyupper rol
  let docU := pyupper (pytrim doc_num)
  if rolU = [] ∨ docU = [] then ((false, lit "Falta rol o documento."), t)
  else
    ((true, lit "Documento mostrado."),
     t.filter (fun o => !(o.rol == rolU && o.doc_num == docU)))

/-- The PADRE/MADRE/MENOR branches of `admin_actualizar_doc`: same shape as
`propagar_cambio_doc`'s UPDATE but with `COALESCE(col, '')` in the WHERE. -/
def adminColUpdate (now : Str) (rolU old_n new_n : Str) (db : List Permiso) :
    Int × List Permiso :=
  ((db.countP (fun p => rowMatchesC rolU old_n p) : Int),
   db.map (fun p => if rowMatchesC rolU old_n p then setRolDoc rolU new_n now p else p))

/-- The two tables touched by `admin_actualizar_doc`. -/
structure AdminState where
  permisos : List Permiso
  ocultos : List Oculto
deriving DecidableEq

/-- `app.py` `admin_actualizar_doc(rol, old_doc, new_doc, mover_oculto)`:
validates role and documents, runs the role's historic rewrite (the HERMANO
role goes through `_update_hermano_doc_json`), then — best effort — migrates a
suppression marker: when `(rol, old)` is hidden it runs `mostrar_doc(rol,
old)` followed by `ocultar_doc(rol, new, f"Migrado desde {old}",
creado_por="ADMIN")`.  The success message text is abbreviated here. -/
def admin_actualizar_doc (now : Str) (rol old_doc new_doc : Str)
    (mover_oculto : Bool) (st : AdminState) : (Bool × Str × Int) × AdminState :=
  let rolU := pyupper rol
  let old_n := _norm_doc old_doc
  let new_n := _norm_doc new_doc
  if ¬(rolU = lit "PADRE" ∨ rolU = lit "MADRE" ∨ rolU = lit "MENOR" ∨
        rolU = lit "HERMANO") then
    ((false, lit "ROL inválido.", 0), st)
  else if old_n = [] ∨ new_n = [] then
    ((false, lit "Faltan documentos (anterior/nuevo).", 0), st)
  else if old_n = new_n then
    ((false, lit "El documento nuevo es igual al anterior.", 0), st)
  else
    let r :=
      if rolU = lit "HERMANO" then _update_hermano_doc_json now old_n new_n st.permisos
      else adminColUpdate now rolU old_n new_n st.permisos
    let oc :=
      if mover_oculto ∧ is_doc_oculto rolU old_n st.ocultos then
        (ocultar_doc now rolU new_n (lit "Migrado desde " ++ old_n) (lit "ADMIN")
          (mostrar_doc rolU old_n st.ocultos).2).2
      else st.ocultos
    ((true, lit "Documento actualizado.", r.1), ⟨r.2, oc⟩)

/-- The failure modes of the edit / regenerate UI handlers.  The source
surfaces them as blocking messages; the spec's taxonomy names the voided
guard `VoidedRecordImmutableError`. -/
inductive EditError where
  | notFound
  | validationFailed
  | voidedRecordImmutable
  | versionTypeError
  | renderFailed
deriving DecidableEq

/-- The META block of the "Guardar cambios" `data_upd` dict: file path,
lifecycle state (`CORREGIDO` unless the record were voided — unreachable past
the guard), the *unchanged* stored version, and the stored void audit trio. -/
def metaEntries (p : Permiso) (estadoU : Str) : DataMap :=
  [(lit "archivo_generado", p.archivo_generado),
   (lit "estado", Val.s (if estadoU == lit "ANULADO" then lit "ANULADO" else lit "CORREGIDO")),
   (lit "version", p.version),
   (lit "anulado_at", p.anulado_at),
   (lit "anulado_motivo", p.anulado_motivo),
   (lit "anulado_por", p.anulado_por)]

/-- The "💾 Guardar cambios" handler (`app.py`, editing mode): refuses when the
loaded permit is `ANULADO` (the button is disabled and the handler re-checks),
refuses when validation fails, and otherwise calls `update_permiso` with the
form-derived content fields plus the META block.  `content` abstracts the
validated form fields (`vals`, serialized receivers/siblings/companions); it
never contains the META keys, and the META entries take precedence here just
as the dict literal's later keys would.  The optional post-save document
propagation (a checkbox) is `propagar_cambio_doc`, modelled separately. -/
def guardarCambios (now : Str) (pid : Int) (valid : Bool) (content : DataMap)
    (db : List Permiso) : Option EditError × List Permiso :=
  match db.find? (fun p => p.id == pid) with
  | none => (some EditError.notFound, db)
  | some perm =>
    let estadoU := pyupper (pyStr perm.estado)
    if estadoU == lit "ANULADO" then (some EditError.voidedRecordImmutable, db)
    else if ¬valid then (some EditError.validationFailed, db)
    else
      let data_upd := metaEntries perm estadoU ++ content
      (none, db.map (fun q => if q.id == pid then update_permiso now data_upd q else q))

/-- The "🧾 Re-generar DOCX (nueva versión)" handler: refuses when the permit
is `ANULADO`; otherwise re-fetches the record, increments `version` by one
(a non-integer stored version would raise a TypeError before any write),
renders the new artifact (failure aborts with no write), stores the new file
path, sets `estado = "CORREGIDO"`, and persists via `update_permiso`.
`content` abstracts the form-derived overrides (companion, reception, travel
and parent-document fields); it never contains `version`, `estado` or
`archivo_generado`, whose final assignments win here as in the source. -/
def regenerarDocx (now : Str) (pid : Int) (content : DataMap)
    (nuevo_archivo : Str) (renderOk : Bool) (db : List Permiso) :
    Option EditError × List Permiso :=
  match db.find? (fun p => p.id == pid) with
  | none => (some EditError.notFound, db)
  | some perm =>
    let estadoU := pyupper (pyStr perm.estado)
    if estadoU == lit "ANULADO" then (some EditError.voidedRecordImmutable, db)
    else
      match perm.version with
      | Val.i n =>
        if renderOk then
          let d := [(lit "archivo_generado", Val.s nuevo_archivo),
                    (lit "estado", Val.s (lit "CORREGIDO")),
                    (lit "version", Val.i (n + 1))] ++ content ++ permisoToData perm
          (none, db.map (fun q => if q.id == pid then update_permiso now d q else q))
        else (some EditError.renderFailed, db)
      | _ => (some EditError.versionTypeError, db)

/-- `app.py` `anular_permiso(pid, motivo, usuario)`: refuses on a missing or
already-`ANULADO` permit; otherwise copies the full record, overrides the
void fields, and persists the copy via `update_permiso`. -/
def anular_permiso (now : Str) (pid : Int) (motivo usuario : Str)
    (db : List Permiso) : (Bool × Str) × List Permiso :=
  match db.find? (fun p => p.id == pid) with
  | none => ((false, lit "No existe el permiso."), db)
  | some perm =>
    if pyupper (pyStr perm.estado) == lit "ANULADO" then
      ((false, lit "El permiso ya está ANULADO."), db)
    else
      let d := [(lit "estado", Val.s (lit "ANULADO")),
                (lit "anulado_at", Val.s now),
                (lit "anulado_motivo", Val.s (pyupper (pytrim motivo))),
                (lit "anulado_por",
                 Val.s (pyupper (if usuario = [] then lit "ADMIN" else usuario)))] ++
               permisoToData perm
      ((true, lit "Permiso ANULADO."),
       db.map (fun q => if q.id == pid then update_permiso now d q else q))

/-- Modelled from the spec: the normalization the spec's sentence describes —
"digits-only collapse when the value looks like a national ID of the expected
length; otherwise compared as trimmed/uppercased free text".  The digits
criterion is kept identical to the code's so that the two definitions differ
exactly where the spec's words add uppercasing. -/
def specNormDoc (x : Str) : Str :=
  let t := pytrim x
  let d := t.filter Char.isDigit
  if 8 ≤ d.length then d else pyupper t

/-- The amended description of the code's normalization: trim, collapse to the
digit subsequence when at least 8 digits are present, otherwise keep the
trimmed text unchanged (no uppercasing). -/
def amendedNormDoc (x : Str) : Str :=
  let t := pytrim x
  let d := t.filter Char.isDigit
  if 8 ≤ d.length then d else t

/-! ### String-algebra lemmas -/

theorem digit_not_ws {c : Char} (h : c.isDigit = true) : c.isWhitespace = false := by
  simp only [Char.isDigit, Bool.and_eq_true, decide_eq_true_eq] at h
  obtain ⟨h1, h2⟩ := h
  simp only [Char.isWhitespace, Bool.or_eq_false_iff, decide_eq_false_iff_not]
  refine ⟨⟨⟨?_, ?_⟩, ?_⟩, ?_⟩ <;> rintro rfl <;> revert h1 h2 <;> decide

theorem dropWhile_eq_self_of_all (p : Char → Bool) (l : Str)
    (h : ∀ c ∈ l, p c = false) : l.dropWhile p = l := by
  cases l with
  | nil => rfl
  | cons a t =>
    rw [List.dropWhile_cons, h a (List.mem_cons_self a t)]
    simp

theorem rdropWhile_eq_self_of_all (p : Char → Bool) (l : Str)
    (h : ∀ c ∈ l, p c = false) : List.rdropWhile p l = l := by
  refine List.rdropWhile_eq_self_iff.mpr (fun hl => ?_)
  simp [h _ (List.getLast_mem hl)]

theorem pytrim_eq_self_of_all (l : Str)
    (h : ∀ c ∈ l, Char.isWhitespace c = false) : pytrim l = l := by
  unfold pytrim
  rw [dropWhile_eq_self_of_all _ _ h, rdropWhile_eq_self_of_all _ _ h]

theorem dropWhile_rdropWhile_fix (p : Char → Bool) (l : Str)
    (hfix : l.dropWhile p = l) :
    (List.rdropWhile p l).dropWhile p = List.rdropWhile p l := by
  refine List.dropWhile_eq_self_iff.mpr (fun hl hp => ?_)
  obtain ⟨t, ht⟩ := List.rdropWhile_prefix p l
  have hfix2 : (List.rdropWhile p l ++ t).dropWhile p = List.rdropWhile p l ++ t := by
    rw [ht]; exact hfix
  have h0 : 0 < (List.rdropWhile p l ++ t).length := by
    rw [List.length_append]; omega
  have hhead := List.dropWhile_eq_self_iff.mp hfix2 h0
  apply hhead
  rw [List.get_append 0 hl]
  exact hp

theorem pytrim_idem (s : Str) : pytrim (pytrim s) = pytrim s := by
  unfold pytrim
  rw [dropWhile_rdropWhile_fix _ _ (List.dropWhile_idempotent _ _),
      List.rdropWhile_idempotent]

theorem norm_doc_all_digits (x : Str) :
    ∀ c ∈ (pytrim x).filter Char.isDigit, Char.isWhitespace c = false :=
  fun c hc => digit_not_ws (List.of_mem_filter hc)

theorem norm_doc_trimmed (x : Str) : pytrim (_norm_doc x) = _norm_doc x := by
  unfold _norm_doc
  by_cases h : 8 ≤ ((pytrim x).filter Char.isDigit).length
  · simp only [if_pos h]
    exact pytrim_eq_self_of_all _ (norm_doc_all_digits x)
  · simp only [if_neg h]
    exact pytrim_idem x

theorem norm_doc_idem (x : Str) : _norm_doc (_norm_doc x) = _norm_doc x := by
  by_cases h : 8 ≤ ((pytrim x).filter Char.isDigit).length
  · have hx : _norm_doc x = (pytrim x).filter Char.isDigit := by
      unfold _norm_doc
      simp only [if_pos h]
    rw [hx]
    unfold _norm_doc
    rw [pytrim_eq_self_of_all _ (norm_doc_all_digits x)]
    have hDD : ((pytrim x).filter Char.isDigit).filter Char.isDigit
        = (pytrim x).filter Char.isDigit :=
      List.filter_eq_self.mpr (fun a ha => List.of_mem_filter ha)
    simp only [hDD]
    simp [h]
  · have hx : _norm_doc x = pytrim x := by
      unfold _norm_doc
      simp only [if_neg h]
    rw [hx]
    unfold _norm_doc
    rw [pytrim_idem]
    simp [h]

/-! ### Correlative issuer -/

theorem lookupCorrel_insert (y : Int) (t : CorrelTable) :
    lookupCorrel y ((y, 1) :: t) = some 1 := by
  simp [lookupCorrel, List.find?]

theorem find?_correl_update (y v : Int) (t : CorrelTable) :
    (t.map (fun q => if q.1 == y then (q.1, v) else q)).find? (fun r => r.1 == y)
      = (t.find? (fun r => r.1 == y)).map (fun r => (r.1, v)) := by
  induction t with
  | nil => rfl
  | cons a t ih =>
    by_cases h : a.1 = y
    · have hb : (a.1 == y) = true := beq_iff_eq.mpr h
      rw [List.map_cons, if_pos hb, List.find?_cons, List.find?_cons]
      dsimp only
      rw [hb]
      rfl
    · have hb : (a.1 == y) = false := beq_false_of_ne h
      rw [List.map_cons, if_neg (by simp [hb]), List.find?_cons, List.find?_cons]
      rw [hb]
      exact ih

theorem lookupCorrel_update (y v : Int) (t : CorrelTable) :
    lookupCorrel y (t.map (fun q => if q.1 == y then (q.1, v) else q))
      = (lookupCorrel y t).map (fun _ => v) := by
  unfold lookupCorrel
  rw [find?_correl_update]
  cases t.find? (fun r => r.1 == y) <;> rfl

theorem gnc_of_none (y : Int) (t : CorrelTable)
    (h1 : 2000 ≤ y) (h2 : y ≤ 2100) (h : lookupCorrel y t = none) :
    get_next_correlativo y t = .ok (1, (y, 1) :: t) := by
  have hf : t.find? (fun r => r.1 == y) = none := by
    unfold lookupCorrel at h
    exact Option.map_eq_none.mp h
  unfold get_next_correlativo
  rw [if_pos ⟨h1, h2⟩, hf]

theorem gnc_of_some (y c : Int) (t : CorrelTable)
    (h1 : 2000 ≤ y) (h2 : y ≤ 2100) (h : lookupCorrel y t = some c) :
    ∃ t2, get_next_correlativo y t = .ok (c + 1, t2) ∧
      lookupCorrel y t2 = some (c + 1) := by
  obtain ⟨r, hr, hrc⟩ : ∃ r, t.find? (fun q => q.1 == y) = some r ∧ r.2 = c := by
    unfold lookupCorrel at h
    rcases Option.map_eq_some'.mp h with ⟨r, hr, hrc⟩
    exact ⟨r, hr, hrc⟩
  refine ⟨t.map (fun q => if q.1 == y then (q.1, r.2 + 1) else q), ?_, ?_⟩
  · unfold get_next_correlativo
    rw [if_pos ⟨h1, h2⟩, hr]
    dsimp only
    rw [hrc]
  · rw [hrc, lookupCorrel_update, h]
    rfl

theorem issueSeq_of_some (y : Int) (h1 : 2000 ≤ y) (h2 : y ≤ 2100) :
    ∀ (N : Nat) (t : CorrelTable) (c : Int), lookupCorrel y t = some c →
      ∃ t2, issueSeq y t N
          = .ok ((List.range N).map (fun i => c + 1 + Int.ofNat i), t2) ∧
        lookupCorrel y t2 = some (c + N) := by
  intro N
  induction N with
  | zero => exact fun t c h => ⟨t, rfl, by rw [h]; norm_num⟩
  | succ n ih =>
    intro t c h
    obtain ⟨t1, hok, hl1⟩ := gnc_of_some y c t h1 h2 h
    obtain ⟨t2, hseq, hl2⟩ := ih t1 (c + 1) hl1
    refine ⟨t2, ?_, ?_⟩
    · show issueSeq y t (n + 1) = _
      unfold issueSeq
      rw [hok]
      dsimp only
      rw [hseq]
      refine congrArg _ (congrArg₂ Prod.mk ?_ rfl)
      rw [List.range_succ_eq_map, List.map_cons, List.map_map]
      refine congrArg₂ List.cons (by norm_num) ?_
      refine List.map_congr_left (fun i _ => ?_)
      simp only [Function.comp, Int.ofNat_eq_coe]
      push_cast
      ring
    · rw [hl2]
      congr 1
      omega

theorem cons_map_range (a : Int) (n : Nat) :
    a :: (List.range n).map (fun i => a + 1 + Int.ofNat i)
      = (List.range (n + 1)).map (fun i => a + Int.ofNat i) := by
  rw [List.range_succ_eq_map, List.map_cons, List.map_map]
  refine congrArg₂ List.cons (by norm_num) ?_
  refine List.map_congr_left (fun i _ => ?_)
  simp only [Function.comp, Int.ofNat_eq_coe]
  push_cast
  ring

/-- C1: for every year in the valid range (2000–2100), issuing `N` correlative
numbers sequentially via `get_next_correlativo(year)`, starting with no
counter row for that year, yields exactly the numbers `1..N` (no gaps, no
duplicates); the stored per-year counter only increases — every call on a
table holding counter `c` returns `c + 1` and stores `c + 1`, and a call with
no counter row returns 1 and creates the row holding 1. -/
theorem correlativo_sequential_gapless (y : Int) (t : CorrelTable) (N : Nat)
    (h1 : 2000 ≤ y) (h2 : y ≤ 2100) (h0 : lookupCorrel y t = none) :
    (∃ t2, issueSeq y t N
        = .ok ((List.range N).map (fun i => 1 + Int.ofNat i), t2)
      ∧ (N ≠ 0 → lookupCorrel y t2 = some (N : Int)))
    ∧ (∀ k : Int, k ∈ (List.range N).map (fun i => 1 + Int.ofNat i)
        ↔ 1 ≤ k ∧ k ≤ (N : Int))
    ∧ ((List.range N).map (fun i => 1 + Int.ofNat i)).Nodup
    ∧ (∀ (u : CorrelTable) (c : Int), lookupCorrel y u = some c →
        ∃ u2, get_next_correlativo y u = .ok (c + 1, u2)
          ∧ lookupCorrel y u2 = some (c + 1))
    ∧ (∀ u : CorrelTable, lookupCorrel y u = none →
        get_next_correlativo y u = .ok (1, (y, 1) :: u)
          ∧ lookupCorrel y ((y, 1) :: u) = some 1) := by
  refine ⟨?_, ?_, ?_, ?_, ?_⟩
  · cases N with
    | zero => exact ⟨t, rfl, fun hN => absurd rfl hN⟩
    | succ n =>
      have hok := gnc_of_none y t h1 h2 h0
      have hl1 : lookupCorrel y ((y, 1) :: t) = some 1 := lookupCorrel_insert y t
      obtain ⟨t2, hseq, hl2⟩ := issueSeq_of_some y h1 h2 n ((y, 1) :: t) 1 hl1
      refine ⟨t2, ?_, fun _ => ?_⟩
      · show issueSeq y t (n + 1) = _
        unfold issueSeq
        rw [hok]
        dsimp only
        rw [hseq]
        refine congrArg _ (congrArg₂ Prod.mk ?_ rfl)
        exact cons_map_range 1 n
      · rw [hl2]
        congr 1
        omega
  · intro k
    simp only [List.mem_map, List.mem_range, Int.ofNat_eq_coe]
    constructor
    · rintro ⟨i, hi, rfl⟩
      omega
    · rintro ⟨hk1, hk2⟩
      refine ⟨(k - 1).toNat, ?_, ?_⟩ <;> omega
  · refine List.Nodup.map ?_ (List.nodup_range N)
    intro a b hab
    simp only [Int.ofNat_eq_coe] at hab
    omega
  · exact fun u c h => gnc_of_some y c u h1 h2 h
  · exact fun u h => ⟨gnc_of_none y u h1 h2 h, lookupCorrel_insert y u⟩

theorem correlativo_sequential_gapless_witness :
    ∃ t2, issueSeq 2025 [] 3
        = .ok ((List.range 3).map (fun i => 1 + Int.ofNat i), t2)
      ∧ (3 ≠ 0 → lookupCorrel 2025 t2 = some ((3 : Nat) : Int)) :=
  (correlativo_sequential_gapless 2025 [] 3 (by decide) (by decide) rfl).1

/-! ### The legal identity `(anio, numero)` -/

/-- The legal identity of a row: surrogate id plus the `(anio, numero)` pair. -/
def keyOf (p : Permiso) : Int × Val × Val := (p.id, p.anio, p.numero)

theorem keyOf_update_permiso (now : Str) (d : DataMap) (p : Permiso) :
    keyOf (update_permiso now d p) = keyOf p := rfl

theorem keyOf_setRolDoc (rol new_n now : Str) (p : Permiso) :
    keyOf (setRolDoc rol new_n now p) = keyOf p := by
  unfold setRolDoc
  split
  · rfl
  · split <;> rfl

theorem map_keyOf_update_at (now : Str) (pid : Int) (d : DataMap)
    (db : List Permiso) :
    (db.map (fun q => if q.id == pid then update_permiso now d q else q)).map keyOf
      = db.map keyOf := by
  rw [List.map_map]
  refine List.map_congr_left (fun p _ => ?_)
  by_cases m : (p.id == pid) = true
  · simp [Function.comp, m, keyOf_update_permiso]
  · simp [Function.comp, m]

/-- No two rows of the table agree on a non-NULL `(anio, numero)` pair
(the SQLite `UNIQUE(anio, numero)` constraint, NULLs distinct). -/
def uniqueCorrelativePairs (db : List Permiso) : Prop :=
  db.Pairwise (fun p q =>
    ¬(p.anio = q.anio ∧ p.numero = q.numero ∧ p.anio ≠ Val.null ∧ p.numero ≠ Val.null))

theorem propagar_keys (now rol old new : Str) (db : List Permiso) :
    ((propagar_cambio_doc now rol old new db).2).map keyOf = db.map keyOf := by
  unfold propagar_cambio_doc
  dsimp only
  split
  · rfl
  · rw [List.map_map]
    refine List.map_congr_left (fun p _ => ?_)
    by_cases m : rowMatches (pyupper rol) (_norm_doc old) p = true
    · simp [Function.comp, m, keyOf_setRolDoc]
    · simp [Function.comp, m]

theorem herm_update_keys (now old new : Str) (db : List Permiso) :
    ((_update_hermano_doc_json now old new db).2).map keyOf = db.map keyOf := by
  unfold _update_hermano_doc_json
  dsimp only
  split
  · rfl
  · rw [List.map_map]
    refine List.map_congr_left (fun p _ => ?_)
    by_cases m : hermRowChanged (_norm_doc old) p = true
    · simp [Function.comp, m, keyOf]
    · simp [Function.comp, m]

theorem anular_keys (now : Str) (pid : Int) (motivo usuario : Str)
    (db : List Permiso) :
    ((anular_permiso now pid motivo usuario db).2).map keyOf = db.map keyOf := by
  unfold anular_permiso
  cases db.find? (fun p => p.id == pid) with
  | none => rfl
  | some perm =>
    dsimp only
    split
    · rfl
    · exact map_keyOf_update_at _ _ _ _

theorem guardar_keys (now : Str) (pid : Int) (valid : Bool) (content : DataMap)
    (db : List Permiso) :
    ((guardarCambios now pid valid content db).2).map keyOf = db.map keyOf := by
  unfold guardarCambios
  cases db.find? (fun p => p.id == pid) with
  | none => rfl
  | some perm =>
    dsimp only
    split
    · rfl
    · split
      · rfl
      · exact map_keyOf_update_at _ _ _ _

theorem regenerar_keys (now : Str) (pid : Int) (content : DataMap)
    (na : Str) (rok : Bool) (db : List Permiso) :
    ((regenerarDocx now pid content na rok db).2).map keyOf = db.map keyOf := by
  unfold regenerarDocx
  cases db.find? (fun p => p.id == pid) with
  | none => rfl
  | some perm =>
    dsimp only
    split
    · rfl
    · split
      · split
        · exact map_keyOf_update_at _ _ _ _
        · rfl
      · rfl

theorem save_ok_characterization (now : Str) (nid : Int) (d : DataMap)
    (db db' : List Permiso)
    (h : save_permiso_registro now nid d db = .ok db') :
    db' = db ++ [savedPermiso now nid d]
    ∧ ∀ q ∈ db,
        ¬(q.anio = (savedPermiso now nid d).anio
          ∧ q.numero = (savedPermiso now nid d).numero
          ∧ (savedPermiso now nid d).anio ≠ Val.null
          ∧ (savedPermiso now nid d).numero ≠ Val.null) := by
  unfold save_permiso_registro at h
  dsimp only at h
  by_cases hc : (db.any (fun q =>
      q.anio == (savedPermiso now nid d).anio
      && q.numero == (savedPermiso now nid d).numero
      && !((savedPermiso now nid d).anio == Val.null)
      && !((savedPermiso now nid d).numero == Val.null))) = true
  · rw [if_pos hc] at h
    exact absurd h (by simp)
  · rw [if_neg hc] at h
    refine ⟨by injection h with h2; exact h2.symm, fun q hq => ?_⟩
    have hq2 := (List.any_eq_false).mp (Bool.not_eq_true _ |>.mp hc) q hq
    rintro ⟨e1, e2, n1, n2⟩
    have ht : (q.anio == (savedPermiso now nid d).anio
        && q.numero == (savedPermiso now nid d).numero
        && !((savedPermiso now nid d).anio == Val.null)
        && !((savedPermiso now nid d).numero == Val.null)) = true := by
      simp only [Bool.and_eq_true, beq_iff_eq, Bool.not_eq_true']
      exact ⟨⟨⟨e1, e2⟩, beq_eq_false_iff_ne.mpr n1⟩, beq_eq_false_iff_ne.mpr n2⟩
    exact hq2 ht

/-- C7: `(anio, numero)` is globally unique and immutable once assigned: the
insert path enforces the table's `UNIQUE(anio, numero)` constraint (a
successful insert appends a row that conflicts with no existing one and
preserves pairwise uniqueness), and no mutating operation — `update_permiso`
(the store-level applyEdit), voiding, document regeneration, or identity
propagation (column or sibling form) — changes any record's `anio` or
`numero` (nor its surrogate id). -/
theorem correlative_pair_immutable :
    (∀ (now : Str) (nid : Int) (d : DataMap) (db db' : List Permiso),
       save_permiso_registro now nid d db = .ok db' →
       db' = db ++ [savedPermiso now nid d]
       ∧ (∀ q ∈ db,
            ¬(q.anio = (savedPermiso now nid d).anio
              ∧ q.numero = (savedPermiso now nid d).numero
              ∧ (savedPermiso now nid d).anio ≠ Val.null
              ∧ (savedPermiso now nid d).numero ≠ Val.null))
       ∧ (uniqueCorrelativePairs db → uniqueCorrelativePairs db'))
    ∧ (∀ (now : Str) (d : DataMap) (p : Permiso),
        (update_permiso now d p).anio = p.anio
        ∧ (update_permiso now d p).numero = p.numero
        ∧ (update_permiso now d p).id = p.id)
    ∧ (∀ (now rol old new : Str) (db : List Permiso),
        ((propagar_cambio_doc now rol old new db).2).map keyOf = db.map keyOf)
    ∧ (∀ (now old new : Str) (db : List Permiso),
        ((_update_hermano_doc_json now old new db).2).map keyOf = db.map keyOf)
    ∧ (∀ (now : Str) (pid : Int) (motivo usuario : Str) (db : List Permiso),
        ((anular_permiso now pid motivo usuario db).2).map keyOf = db.map keyOf)
    ∧ (∀ (now : Str) (pid : Int) (valid : Bool) (content : DataMap)
        (db : List Permiso),
        ((guardarCambios now pid valid content db).2).map keyOf = db.map keyOf)
    ∧ (∀ (now : Str) (pid : Int) (content : DataMap) (na : Str) (rok : Bool)
        (db : List Permiso),
        ((regenerarDocx now pid content na rok db).2).map keyOf = db.map keyOf) := by
  refine ⟨?_, ?_, ?_, ?_, ?_, ?_, ?_⟩
  · intro now nid d db db' h
    obtain ⟨hdb, hnoc⟩ := save_ok_characterization now nid d db db' h
    refine ⟨hdb, hnoc, fun hu => ?_⟩
    rw [hdb]
    unfold uniqueCorrelativePairs at hu ⊢
    rw [List.pairwise_append]
    refine ⟨hu, List.pairwise_singleton _ _, ?_⟩
    intro q hq r hr
    rw [List.mem_singleton] at hr
    subst hr
    rintro ⟨e1, e2, n1, n2⟩
    exact hnoc q hq ⟨e1, e2, e1 ▸ n1, e2 ▸ n2⟩
  · exact fun now d p => ⟨rfl, rfl, rfl⟩
  · exact propagar_keys
  · exact herm_update_keys
  · exact anular_keys
  · exact guardar_keys
  · exact regenerar_keys

theorem correlative_pair_immutable_witness :
    [savedPermiso (lit "T") 1 []] = [] ++ [savedPermiso (lit "T") 1 []]
    ∧ (∀ q ∈ ([] : List Permiso),
         ¬(q.anio = (savedPermiso (lit "T") 1 []).anio
           ∧ q.numero = (savedPermiso (lit "T") 1 []).numero
           ∧ (savedPermiso (lit "T") 1 []).anio ≠ Val.null
           ∧ (savedPermiso (lit "T") 1 []).numero ≠ Val.null))
    ∧ (uniqueCorrelativePairs []
        → uniqueCorrelativePairs [savedPermiso (lit "T") 1 []]) :=
  correlative_pair_immutable.1 (lit "T") 1 [] [] _ rfl

/-! ### update_permiso overwrite semantics -/

/-- A sample stored row used by concrete witnesses. -/
def pEx : Permiso :=
  { id := 1, anio := Val.i 2025, numero := Val.i 7,
    empresa := Val.s (lit "LATAM"), version := Val.i 1 }

/-- C10: `update_permiso` overwrites every column of its fixed SET list with
`data.get(field, "")` and always rewrites `updated_at`; consequently a key
absent from the supplied map resets that column to the empty string rather
than keeping its previous value. -/
theorem update_permiso_overwrites_all (now : Str) (d : DataMap) (p : Permiso) :
    (∀ f ∈ updFields, (update_permiso now d p).col f = dget d f)
    ∧ (update_permiso now d p).updated_at = Val.s now
    ∧ (∀ f ∈ updFields, d.find? (fun kv => kv.1 == f) = none →
        (update_permiso now d p).col f = Val.s []) := by
  have hall : ∀ f ∈ updFields, (update_permiso now d p).col f = dget d f := by
    intro f hf
    fin_cases hf <;> rfl
  refine ⟨hall, rfl, fun f hf hnone => ?_⟩
  rw [hall f hf]
  unfold dget
  rw [hnone]

theorem update_permiso_overwrites_all_witness :
    pEx.empresa = Val.s (lit "LATAM")
    ∧ (update_permiso (lit "T") [(lit "ciudad", Val.s (lit "LIMA"))] pEx).col
        (lit "empresa") = Val.s [] :=
  ⟨rfl,
   (update_permiso_overwrites_all (lit "T") [(lit "ciudad", Val.s (lit "LIMA"))]
      pEx).2.2 (lit "empresa") (by decide) rfl⟩

/-! ### Version lifecycle -/

/-- C2 counterexample: a permit at version 1 is edited successfully through
the "Guardar cambios" handler, and its stored version is still 1, not 2: the
handler's META block writes back `perm.get("version", 1)` unchanged, so a
successful edit does not increment the version. -/
theorem edit_does_not_increment_version_cex :
    (guardarCambios (lit "T2") 1 true [] [pEx]).1 = none
    ∧ ((guardarCambios (lit "T2") 1 true [] [pEx]).2).map Permiso.version
        = [Val.i 1]
    ∧ ((guardarCambios (lit "T2") 1 true [] [pEx]).2).map Permiso.version
        ≠ [Val.i 2] := by
  refine ⟨rfl, rfl, ?_⟩
  intro h
  rw [show ((guardarCambios (lit "T2") 1 true [] [pEx]).2).map Permiso.version
      = [Val.i 1] from rfl] at h
  exact absurd (List.head_eq_of_cons_eq h) (by decide)

/-- C2 (amended): `version` starts at 1 at initial issuance (the insert
defaults apply when the caller supplies no version, as the creation flow
does); each successful regenerate increments it by exactly 1; a successful
edit ("Guardar cambios") persists the record with `version` unchanged; and
voiding a permit does not change `version`. -/
theorem version_lifecycle :
    (∀ (now : Str) (nid : Int) (d : DataMap),
       d.find? (fun kv => kv.1 == lit "version") = none →
       (savedPermiso now nid d).version = Val.i 1)
    ∧ (∀ (now : Str) (pid : Int) (content : DataMap) (na : Str)
        (db : List Permiso) (perm : Permiso) (n : Int),
        db.find? (fun p => p.id == pid) = some perm →
        pyupper (pyStr perm.estado) ≠ lit "ANULADO" →
        perm.version = Val.i n →
        (regenerarDocx now pid content na true db).1 = none
        ∧ ∀ q ∈ (regenerarDocx now pid content na true db).2,
            q.id = pid → q.version = Val.i (n + 1))
    ∧ (∀ (now : Str) (pid : Int) (content : DataMap) (db : List Permiso)
        (perm : Permiso),
        db.find? (fun p => p.id == pid) = some perm →
        pyupper (pyStr perm.estado) ≠ lit "ANULADO" →
        (guardarCambios now pid true content db).1 = none
        ∧ ∀ q ∈ (guardarCambios now pid true content db).2,
            q.id = pid → q.version = perm.version)
    ∧ (∀ (now : Str) (pid : Int) (motivo usuario : Str) (db : List Permiso)
        (perm : Permiso),
        db.find? (fun p => p.id == pid) = some perm →
        pyupper (pyStr perm.estado) ≠ lit "ANULADO" →
        (anular_permiso now pid motivo usuario db).1.1 = true
        ∧ ∀ q ∈ (anular_permiso now pid motivo usuario db).2,
            q.id = pid → q.version = perm.version) := by
  refine ⟨?_, ?_, ?_, ?_⟩
  · intro now nid d hnone
    show saveGet now d (lit "version") = Val.i 1
    unfold saveGet
    rw [hnone]
    rfl
  · intro now pid content na db perm n hf he hv
    have hb : (pyupper (pyStr perm.estado) == lit "ANULADO") = false :=
      beq_eq_false_iff_ne.mpr he
    unfold regenerarDocx
    rw [hf]
    dsimp only
    rw [if_neg (show ¬((pyupper (pyStr perm.estado) == lit "ANULADO") = true) by
      simp [hb]), hv]
    dsimp only
    rw [if_pos rfl]
    refine ⟨rfl, fun q hq hid => ?_⟩
    rw [List.mem_map] at hq
    obtain ⟨r, hr, rfl⟩ := hq
    by_cases hm : (r.id == pid) = true
    · rw [if_pos hm]
      rfl
    · rw [if_neg (by simp [hm])] at hid ⊢
      exact absurd (beq_iff_eq.mpr hid) (by simp [hm])
  · intro now pid content db perm hf he
    have hb : (pyupper (pyStr perm.estado) == lit "ANULADO") = false :=
      beq_eq_false_iff_ne.mpr he
    unfold guardarCambios
    rw [hf]
    dsimp only
    rw [if_neg (show ¬((pyupper (pyStr perm.estado) == lit "ANULADO") = true) by
      simp [hb])]
    rw [if_neg (show ¬¬(true = true) by simp)]
    refine ⟨rfl, fun q hq hid => ?_⟩
    rw [List.mem_map] at hq
    obtain ⟨r, hr, rfl⟩ := hq
    by_cases hm : (r.id == pid) = true
    · rw [if_pos hm]
      rfl
    · rw [if_neg (by simp [hm])] at hid ⊢
      exact absurd (beq_iff_eq.mpr hid) (by simp [hm])
  · intro now pid motivo usuario db perm hf he
    have hb : (pyupper (pyStr perm.estado) == lit "ANULADO") = false :=
      beq_eq_false_iff_ne.mpr he
    unfold anular_permiso
    rw [hf]
    dsimp only
    rw [if_neg (show ¬((pyupper (pyStr perm.estado) == lit "ANULADO") = true) by
      simp [hb])]
    refine ⟨rfl, fun q hq hid => ?_⟩
    rw [List.mem_map] at hq
    obtain ⟨r, hr, rfl⟩ := hq
    by_cases hm : (r.id == pid) = true
    · rw [if_pos hm]
      rfl
    · rw [if_neg (by simp [hm])] at hid ⊢
      exact absurd (beq_iff_eq.mpr hid) (by simp [hm])

theorem version_lifecycle_witness :
    (savedPermiso (lit "T") 1 []).version = Val.i 1 :=
  version_lifecycle.1 (lit "T") 1 [] rfl

/-! ### Voided-record immutability -/

/-- A voided sample row (with a father document, for later witnesses). -/
def pAnulado : Permiso :=
  { id := 2, anio := Val.i 2025, numero := Val.i 9,
    estado := Val.s (lit "ANULADO"), version := Val.i 3,
    padre_doc_num := Val.s (lit "12345678"),
    padre_dni := Val.s (lit "12345678") }

/-- C3: once a permit's state is `ANULADO`, every subsequent edit ("Guardar
cambios") or regeneration ("Re-generar DOCX") against it fails with the
voided-immutability error and returns the permit table entirely unchanged —
every field, the version and the state included. -/
theorem voided_record_immutable (now : Str) (pid : Int) (valid : Bool)
    (content : DataMap) (na : Str) (rok : Bool) (db : List Permiso)
    (perm : Permiso)
    (hf : db.find? (fun p => p.id == pid) = some perm)
    (hA : pyupper (pyStr perm.estado) = lit "ANULADO") :
    guardarCambios now pid valid content db
      = (some EditError.voidedRecordImmutable, db)
    ∧ regenerarDocx now pid content na rok db
      = (some EditError.voidedRecordImmutable, db) := by
  have hb : (pyupper (pyStr perm.estado) == lit "ANULADO") = true :=
    beq_iff_eq.mpr hA
  constructor
  · unfold guardarCambios
    rw [hf]
    dsimp only
    rw [if_pos hb]
  · unfold regenerarDocx
    rw [hf]
    dsimp only
    rw [if_pos hb]

theorem voided_record_immutable_witness :
    guardarCambios (lit "T") 2 true [] [pAnulado]
      = (some EditError.voidedRecordImmutable, [pAnulado])
    ∧ regenerarDocx (lit "T") 2 [] (lit "f.docx") true [pAnulado]
      = (some EditError.voidedRecordImmutable, [pAnulado]) :=
  voided_record_immutable (lit "T") 2 true [] (lit "f.docx") true [pAnulado]
    pAnulado rfl rfl

/-! ### Identity propagation over all lifecycle states -/

theorem getElem?_map_step (step : Permiso → Permiso) (pr : Permiso → Bool)
    (db : List Permiso) (i : Nat) (p : Permiso) (h : db[i]? = some p) :
    ∃ p2, (db.map (fun q => if pr q then step q else q))[i]? = some p2
      ∧ (pr p = true → p2 = step p) ∧ (pr p = false → p2 = p) := by
  refine ⟨if pr p then step p else p, ?_, ?_, ?_⟩
  · rw [List.getElem?_map, h]
    rfl
  · intro hm
    rw [if_pos hm]
  · intro hm
    rw [if_neg (by simp [hm])]

theorem setRolDoc_fields (rol new_n now : Str) (p : Permiso) :
    rolDocNum rol (setRolDoc rol new_n now p) = Val.s new_n
    ∧ rolDni rol (setRolDoc rol new_n now p) = Val.s new_n
    ∧ (setRolDoc rol new_n now p).updated_at = Val.s now
    ∧ (setRolDoc rol new_n now p).estado = p.estado
    ∧ (setRolDoc rol new_n now p).version = p.version
    ∧ (setRolDoc rol new_n now p).anio = p.anio
    ∧ (setRolDoc rol new_n now p).numero = p.numero := by
  unfold setRolDoc rolDocNum rolDni
  by_cases hP : rol = lit "PADRE"
  · simp [hP]
  · by_cases hM : rol = lit "MADRE"
    · have hne : lit "MADRE" ≠ lit "PADRE" := by decide
      simp [hM, hne]
    · simp [hP, hM]

theorem rowMatches_estado_independent (rol old_n : Str) (p : Permiso) (e : Val) :
    rowMatches rol old_n { p with estado := e } = rowMatches rol old_n p := by
  unfold rowMatches rolDocNum rolDni
  by_cases hP : rol = lit "PADRE"
  · simp [hP]
  · by_cases hM : rol = lit "MADRE"
    · have hne : lit "MADRE" ≠ lit "PADRE" := by decide
      simp [hM, hne]
    · simp [hP, hM]

theorem rowMatchesC_estado_independent (rol old_n : Str) (p : Permiso) (e : Val) :
    rowMatchesC rol old_n { p with estado := e } = rowMatchesC rol old_n p := by
  unfold rowMatchesC rolDocNum rolDni
  by_cases hP : rol = lit "PADRE"
  · simp [hP]
  · by_cases hM : rol = lit "MADRE"
    · have hne : lit "MADRE" ≠ lit "PADRE" := by decide
      simp [hM, hne]
    · simp [hP, hM]

theorem propagar_unfold (now rol old new : Str) (db : List Permiso)
    (h1 : _norm_doc old ≠ []) (h2 : _norm_doc new ≠ [])
    (h3 : _norm_doc old ≠ _norm_doc new) :
    propagar_cambio_doc now rol old new db
      = ((db.countP (fun p => rowMatches (pyupper rol) (_norm_doc old) p) : Int),
         db.map (fun p => if rowMatches (pyupper rol) (_norm_doc old) p
           then setRolDoc (pyupper rol) (_norm_doc new) now p else p)) := by
  unfold propagar_cambio_doc
  dsimp only
  rw [if_neg (by simp [h1, h2, h3])]

/-- C5: for the column-based roles PADRE/MADRE/MENOR, the identity rewrite
(`propagar_cambio_doc`, and the `admin_actualizar_doc` column branches with
their `COALESCE` WHERE variant) rewrites both the document-number column and
its legacy `*_dni` mirror to the normalized new number on every row whose
space-stripped stored value matches the normalized old number, stamping
`updated_at` and touching nothing that decides lifecycle: the match predicate
ignores `estado` entirely (so `ANULADO` rows are rewritten like any other),
non-matching rows are untouched, and the reported count is the number of
matching rows. -/
theorem propagation_rewrites_all_states (now rol old new : Str)
    (db : List Permiso)
    (hrol : pyupper rol = lit "PADRE" ∨ pyupper rol = lit "MADRE"
      ∨ pyupper rol = lit "MENOR")
    (h1 : _norm_doc old ≠ []) (h2 : _norm_doc new ≠ [])
    (h3 : _norm_doc old ≠ _norm_doc new) :
    ((propagar_cambio_doc now rol old new db).1
      = (db.countP (fun p => rowMatches (pyupper rol) (_norm_doc old) p) : Int))
    ∧ ((propagar_cambio_doc now rol old new db).2).length = db.length
    ∧ (∀ (i : Nat) (p : Permiso), db[i]? = some p →
        ∃ p2, ((propagar_cambio_doc now rol old new db).2)[i]? = some p2
          ∧ (rowMatches (pyupper rol) (_norm_doc old) p = true →
              rolDocNum (pyupper rol) p2 = Val.s (_norm_doc new)
              ∧ rolDni (pyupper rol) p2 = Val.s (_norm_doc new)
              ∧ p2.updated_at = Val.s now
              ∧ p2.estado = p.estado ∧ p2.version = p.version
              ∧ p2.anio = p.anio ∧ p2.numero = p.numero)
          ∧ (rowMatches (pyupper rol) (_norm_doc old) p = false → p2 = p))
    ∧ (∀ (p : Permiso) (e : Val),
        rowMatches (pyupper rol) (_norm_doc old) { p with estado := e }
          = rowMatches (pyupper rol) (_norm_doc old) p)
    ∧ (∀ (i : Nat) (p : Permiso), db[i]? = some p →
        ∃ p2, ((adminColUpdate now (pyupper rol) (_norm_doc old)
                (_norm_doc new) db).2)[i]? = some p2
          ∧ (rowMatchesC (pyupper rol) (_norm_doc old) p = true →
              rolDocNum (pyupper rol) p2 = Val.s (_norm_doc new)
              ∧ rolDni (pyupper rol) p2 = Val.s (_norm_doc new)
              ∧ p2.estado = p.estado)
          ∧ (rowMatchesC (pyupper rol) (_norm_doc old) p = false → p2 = p)) := by
  rw [propagar_unfold now rol old new db h1 h2 h3]
  refine ⟨rfl, by rw [List.length_map], ?_, ?_, ?_⟩
  · intro i p hp
    obtain ⟨p2, hp2, hmt, hmf⟩ := getElem?_map_step
      (setRolDoc (pyupper rol) (_norm_doc new) now)
      (fun q => rowMatches (pyupper rol) (_norm_doc old) q) db i p hp
    refine ⟨p2, hp2, fun hm => ?_, hmf⟩
    rw [hmt hm]
    obtain ⟨f1, f2, f3, f4, f5, f6, f7⟩ :=
      setRolDoc_fields (pyupper rol) (_norm_doc new) now p
    exact ⟨f1, f2, f3, f4, f5, f6, f7⟩
  · exact fun p e => rowMatches_estado_independent (pyupper rol) (_norm_doc old) p e
  · intro i p hp
    obtain ⟨p2, hp2, hmt, hmf⟩ := getElem?_map_step
      (setRolDoc (pyupper rol) (_norm_doc new) now)
      (fun q => rowMatchesC (pyupper rol) (_norm_doc old) q) db i p hp
    refine ⟨p2, hp2, fun hm => ?_, hmf⟩
    rw [hmt hm]
    obtain ⟨f1, f2, _, f4, _, _, _⟩ :=
      setRolDoc_fields (pyupper rol) (_norm_doc new) now p
    exact ⟨f1, f2, f4⟩

theorem propagation_rewrites_all_states_witness :
    pAnulado.estado = Val.s (lit "ANULADO")
    ∧ ∃ p2, ((propagar_cambio_doc (lit "T") (lit "PADRE") (lit "12345678")
          (lit "87654321") [pAnulado]).2)[0]? = some p2
        ∧ (rowMatches (pyupper (lit "PADRE")) (_norm_doc (lit "12345678"))
            pAnulado = true →
            rolDocNum (pyupper (lit "PADRE")) p2
              = Val.s (_norm_doc (lit "87654321"))
            ∧ rolDni (pyupper (lit "PADRE")) p2
              = Val.s (_norm_doc (lit "87654321"))
            ∧ p2.updated_at = Val.s (lit "T")
            ∧ p2.estado = pAnulado.estado ∧ p2.version = pAnulado.version
            ∧ p2.anio = pAnulado.anio ∧ p2.numero = pAnulado.numero)
        ∧ (rowMatches (pyupper (lit "PADRE")) (_norm_doc (lit "12345678"))
            pAnulado = false → p2 = pAnulado) :=
  ⟨rfl,
   (propagation_rewrites_all_states (lit "T") (lit "PADRE") (lit "12345678")
      (lit "87654321") [pAnulado] (Or.inl rfl) (by decide) (by decide)
      (by decide)).2.2.1 0 pAnulado rfl⟩

/-! ### Sibling (HERMANO) rewrite frame -/

theorem herm_unfold (now old new : Str) (db : List Permiso)
    (h1 : _norm_doc old ≠ []) (h2 : _norm_doc new ≠ [])
    (h3 : _norm_doc old ≠ _norm_doc new) :
    _update_hermano_doc_json now old new db
      = ((db.countP (hermRowChanged (_norm_doc old)) : Int),
         db.map (fun p =>
           if hermRowChanged (_norm_doc old) p then
             { p with
               hermanos_json :=
                 Val.herm (((parseHermanos p.hermanos_json).getD []).map
                   (hermStep (_norm_doc old) (_norm_doc new))),
               updated_at := Val.s now }
           else p)) := by
  unfold _update_hermano_doc_json
  dsimp only
  rw [if_neg (by simp [h1, h2, h3])]

/-- C8: the SIBLING-role rewrite (`_update_hermano_doc_json`) changes at most
`hermanos_json` and `updated_at` of each affected row — in particular the
top-level minor/father/mother document fields are untouched — and inside the
decoded sibling array each sibling is changed at most in its `doc_num`, which
becomes the normalized new number exactly when the sibling matched the old
one. -/
theorem sibling_rewrite_frame (now old new : Str) (db : List Permiso)
    (h1 : _norm_doc old ≠ []) (h2 : _norm_doc new ≠ [])
    (h3 : _norm_doc old ≠ _norm_doc new) :
    ((_update_hermano_doc_json now old new db).2).length = db.length
    ∧ (∀ (i : Nat) (p : Permiso), db[i]? = some p →
        ∃ p2, ((_update_hermano_doc_json now old new db).2)[i]? = some p2
          ∧ p2 = { p with hermanos_json := p2.hermanos_json,
                          updated_at := p2.updated_at }
          ∧ p2.menor_doc_num = p.menor_doc_num ∧ p2.menor_dni = p.menor_dni
          ∧ p2.padre_doc_num = p.padre_doc_num ∧ p2.padre_dni = p.padre_dni
          ∧ p2.madre_doc_num = p.madre_doc_num ∧ p2.madre_dni = p.madre_dni
          ∧ (hermRowChanged (_norm_doc old) p = true →
              p2.hermanos_json
                = Val.herm (((parseHermanos p.hermanos_json).getD []).map
                    (hermStep (_norm_doc old) (_norm_doc new)))
              ∧ p2.updated_at = Val.s now)
          ∧ (hermRowChanged (_norm_doc old) p = false → p2 = p))
    ∧ (∀ h : Hermano,
        hermStep (_norm_doc old) (_norm_doc new) h
          = { h with doc_num := (hermStep (_norm_doc old) (_norm_doc new) h).doc_num }
        ∧ (hermMatch (_norm_doc old) h = true →
            (hermStep (_norm_doc old) (_norm_doc new) h).doc_num = _norm_doc new)
        ∧ (hermMatch (_norm_doc old) h = false →
            hermStep (_norm_doc old) (_norm_doc new) h = h)) := by
  rw [herm_unfold now old new db h1 h2 h3]
  refine ⟨by rw [List.length_map], ?_, ?_⟩
  · intro i p hp
    obtain ⟨p2, hp2, hmt, hmf⟩ := getElem?_map_step
      (fun p => { p with
          hermanos_json :=
            Val.herm (((parseHermanos p.hermanos_json).getD []).map
              (hermStep (_norm_doc old) (_norm_doc new))),
          updated_at := Val.s now })
      (hermRowChanged (_norm_doc old)) db i p hp
    by_cases hm : hermRowChanged (_norm_doc old) p = true
    · have he := hmt hm
      subst he
      exact ⟨_, hp2, rfl, rfl, rfl, rfl, rfl, rfl, rfl,
        fun _ => ⟨rfl, rfl⟩, fun hf => absurd hm (by simp [hf])⟩
    · have hm' : hermRowChanged (_norm_doc old) p = false := by
        revert hm
        cases hermRowChanged (_norm_doc old) p <;> simp
      have he := hmf hm'
      subst he
      exact ⟨_, hp2, rfl, rfl, rfl, rfl, rfl, rfl, rfl,
        fun ht => absurd ht (by simp [hm']), fun _ => rfl⟩
  · intro h
    unfold hermStep
    by_cases hm : hermMatch (_norm_doc old) h = true
    · rw [if_pos hm]
      exact ⟨rfl, fun _ => rfl, fun hf => absurd hm (by simp [hf])⟩
    · rw [if_neg hm]
      have hm' : hermMatch (_norm_doc old) h = false := by
        revert hm
        cases hermMatch (_norm_doc old) h <;> simp
      exact ⟨rfl, fun ht => absurd ht (by simp [hm']), fun _ => rfl⟩

/-- A permit with one embedded sibling, for concrete witnesses. -/
def pHerm : Permiso :=
  { id := 3, anio := Val.i 2025, numero := Val.i 10,
    hermanos_json := Val.herm [{ nombre := lit "LUIS",
                                 doc_num := lit "11223344" }],
    menor_doc_num := Val.s (lit "99887766"),
    menor_dni := Val.s (lit "99887766") }

theorem sibling_rewrite_frame_witness :
    ∃ p2, ((_update_hermano_doc_json (lit "T") (lit "11223344")
          (lit "55667788") [pHerm]).2)[0]? = some p2
      ∧ p2 = { pHerm with hermanos_json := p2.hermanos_json,
                          updated_at := p2.updated_at }
      ∧ p2.menor_doc_num = pHerm.menor_doc_num
      ∧ p2.menor_dni = pHerm.menor_dni
      ∧ p2.padre_doc_num = pHerm.padre_doc_num
      ∧ p2.padre_dni = pHerm.padre_dni
      ∧ p2.madre_doc_num = pHerm.madre_doc_num
      ∧ p2.madre_dni = pHerm.madre_dni
      ∧ (hermRowChanged (_norm_doc (lit "11223344")) pHerm = true →
          p2.hermanos_json
            = Val.herm (((parseHermanos pHerm.hermanos_json).getD []).map
                (hermStep (_norm_doc (lit "11223344"))
                  (_norm_doc (lit "55667788"))))
          ∧ p2.updated_at = Val.s (lit "T"))
      ∧ (hermRowChanged (_norm_doc (lit "11223344")) pHerm = false →
          p2 = pHerm) :=
  (sibling_rewrite_frame (lit "T") (lit "11223344") (lit "55667788") [pHerm]
    (by decide) (by decide) (by decide)).2.1 0 pHerm rfl

/-! ### Idempotence of identity propagation -/

/-- A row holding the free-text document "AB12" for the father. -/
def pFree : Permiso :=
  { id := 4, anio := Val.i 2025, numero := Val.i 11,
    padre_doc_num := Val.s (lit "AB12"), padre_dni := Val.s (lit "AB12") }

/-- C4 counterexample: `propagar_cambio_doc("PADRE", "AB12", "AB 12")` is not
idempotent.  Both documents are free text (fewer than 8 digits), so they are
not digit-collapsed; the stored new value "AB 12" space-strips back to
"AB12", so the SQL `REPLACE(col, ' ', '') = old` WHERE clause matches the
already-rewritten row again: the second identical call reports 1 affected
row, not 0. -/
theorem propagation_not_idempotent_cex :
    (propagar_cambio_doc (lit "T") (lit "PADRE") (lit "AB12") (lit "AB 12")
        [pFree]).1 = 1
    ∧ (propagar_cambio_doc (lit "T2") (lit "PADRE") (lit "AB12") (lit "AB 12")
        (propagar_cambio_doc (lit "T") (lit "PADRE") (lit "AB12") (lit "AB 12")
          [pFree]).2).1 = 1
    ∧ ((1 : Int) = 0 → False) := by
  exact ⟨rfl, rfl, by decide⟩

theorem rowMatches_after_set (rol old_n new_n now : Str) (p : Permiso)
    (h : replSp new_n ≠ old_n) :
    rowMatches rol old_n (setRolDoc rol new_n now p) = false := by
  obtain ⟨f1, f2, _, _, _, _, _⟩ := setRolDoc_fields rol new_n now p
  have hq : matchCol old_n (Val.s new_n) = false := by
    unfold matchCol valText
    simp [h]
  unfold rowMatches
  rw [f1, f2, hq]
  rfl

theorem pytrim_of_normalized (new_n : Str) (hidem : _norm_doc new_n = new_n) :
    pytrim new_n = new_n := by
  conv_lhs => rw [← hidem]
  rw [norm_doc_trimmed, hidem]

theorem hermMatch_after_step (old_n new_n : Str) (h0 : Hermano)
    (hne : new_n ≠ []) (hidem : _norm_doc new_n = new_n)
    (hdiff : new_n ≠ old_n) :
    hermMatch old_n (hermStep old_n new_n h0) = false := by
  unfold hermStep
  by_cases hm : hermMatch old_n h0 = true
  · rw [if_pos hm]
    unfold hermMatch hermanoDocRaw
    dsimp only
    rw [if_pos hne, pytrim_of_normalized new_n hidem, hidem]
    exact beq_eq_false_iff_ne.mpr hdiff
  · rw [if_neg hm]
    revert hm
    unfold hermMatch
    cases _norm_doc (hermanoDocRaw h0) == old_n <;> simp

/-- C4 (amended): running the identity rewrite twice with identical arguments
yields `affectedCount = k` then `affectedCount = 0` — for the SIBLING form
unconditionally, and for the column-based roles under the additional
condition that the space-stripped normalized new number differs from the
normalized old number (which always holds for digit-collapsed national IDs).
Without that condition the claim fails (see the counterexample): a free-text
new number containing spaces can space-strip back to the old number and be
matched again by the `REPLACE(col, ' ', '')` WHERE clause. -/
theorem propagation_idempotent_amended :
    (∀ (now now2 rol old new : Str) (db : List Permiso),
       _norm_doc old ≠ [] → _norm_doc new ≠ [] →
       _norm_doc old ≠ _norm_doc new →
       replSp (_norm_doc new) ≠ _norm_doc old →
       (propagar_cambio_doc now rol old new db).1
         = (db.countP (fun p => rowMatches (pyupper rol) (_norm_doc old) p) : Int)
       ∧ (propagar_cambio_doc now2 rol old new
           (propagar_cambio_doc now rol old new db).2).1 = 0)
    ∧ (∀ (now now2 old new : Str) (db : List Permiso),
       _norm_doc old ≠ [] → _norm_doc new ≠ [] →
       _norm_doc old ≠ _norm_doc new →
       (_update_hermano_doc_json now old new db).1
         = (db.countP (hermRowChanged (_norm_doc old)) : Int)
       ∧ (_update_hermano_doc_json now2 old new
           (_update_hermano_doc_json now old new db).2).1 = 0) := by
  constructor
  · intro now now2 rol old new db h1 h2 h3 h4
    rw [propagar_unfold now rol old new db h1 h2 h3]
    refine ⟨rfl, ?_⟩
    rw [propagar_unfold now2 rol old new _ h1 h2 h3]
    dsimp only
    have hz : (List.map (fun p => if rowMatches (pyupper rol) (_norm_doc old) p
          then setRolDoc (pyupper rol) (_norm_doc new) now p else p) db).countP
        (fun p => rowMatches (pyupper rol) (_norm_doc old) p) = 0 := by
      rw [List.countP_eq_zero]
      intro p1 hp1
      rw [List.mem_map] at hp1
      obtain ⟨p, hp, rfl⟩ := hp1
      by_cases hm : rowMatches (pyupper rol) (_norm_doc old) p = true
      · rw [if_pos hm]
        simp [rowMatches_after_set (pyupper rol) (_norm_doc old) (_norm_doc new)
          now p h4]
      · rw [if_neg hm]
        exact hm
    rw [hz]
    rfl
  · intro now now2 old new db h1 h2 h3
    rw [herm_unfold now old new db h1 h2 h3]
    refine ⟨rfl, ?_⟩
    rw [herm_unfold now2 old new _ h1 h2 h3]
    dsimp only
    have hz : (List.map (fun p => if hermRowChanged (_norm_doc old) p then
          { p with
            hermanos_json :=
              Val.herm (((parseHermanos p.hermanos_json).getD []).map
                (hermStep (_norm_doc old) (_norm_doc new))),
            updated_at := Val.s now }
          else p) db).countP (hermRowChanged (_norm_doc old)) = 0 := by
      rw [List.countP_eq_zero]
      intro p1 hp1
      rw [List.mem_map] at hp1
      obtain ⟨p, hp, rfl⟩ := hp1
      by_cases hm : hermRowChanged (_norm_doc old) p = true
      · rw [if_pos hm]
        unfold hermRowChanged hermNonEmptyJson parseHermanos
        dsimp only
        simp only [Bool.true_and, Bool.not_eq_true, List.any_eq_false]
        intro h0 hh0
        rw [List.mem_map] at hh0
        obtain ⟨h00, hh00, rfl⟩ := hh0
        simp [hermMatch_after_step (_norm_doc old) (_norm_doc new) h00 h2
          (norm_doc_idem new) (fun e => h3 e.symm)]
      · rw [if_neg hm]
        exact hm
    rw [hz]
    rfl

theorem propagation_idempotent_amended_witness :
    (propagar_cambio_doc (lit "T") (lit "PADRE") (lit "12345678")
        (lit "87654321") [pAnulado]).1
      = ([pAnulado].countP (fun p =>
          rowMatches (pyupper (lit "PADRE")) (_norm_doc (lit "12345678")) p) : Int)
    ∧ (propagar_cambio_doc (lit "T2") (lit "PADRE") (lit "12345678")
        (lit "87654321")
        (propagar_cambio_doc (lit "T") (lit "PADRE") (lit "12345678")
          (lit "87654321") [pAnulado]).2).1 = 0 :=
  propagation_idempotent_amended.1 (lit "T") (lit "T2") (lit "PADRE")
    (lit "12345678") (lit "87654321") [pAnulado]
    (by decide) (by decide) (by decide) (by decide)

/-! ### Input normalization -/

/-- A row holding the lower-case free-text document "ab12" for the father. -/
def pLower : Permiso :=
  { id := 5, anio := Val.i 2025, numero := Val.i 12,
    padre_doc_num := Val.s (lit "ab12"), padre_dni := Val.s (lit "ab12") }

/-- C9 counterexample: the code's normalization does not uppercase free text.
On `" ab12 "` the code yields `"ab12"` while the spec's described
normalization yields `"AB12"`; behaviourally, `propagar_cambio_doc("PADRE",
"ab12", "AB12")` rewrites 1 row even though under the spec's normalization
old and new would be identical (a benign no-op affecting 0 rows). -/
theorem normalization_not_uppercased_cex :
    _norm_doc (lit " ab12 ") = lit "ab12"
    ∧ specNormDoc (lit " ab12 ") = lit "AB12"
    ∧ _norm_doc (lit " ab12 ") ≠ specNormDoc (lit " ab12 ")
    ∧ specNormDoc (lit "ab12") = specNormDoc (lit "AB12")
    ∧ (propagar_cambio_doc (lit "T") (lit "PADRE") (lit "ab12") (lit "AB12")
        [pLower]).1 = 1 := by
  exact ⟨rfl, rfl, by decide, rfl, rfl⟩

/-- C9 (amended): before comparison and rewriting both document numbers are
normalized by trimming and collapsing to the digit subsequence when at least
8 digits are present; otherwise the trimmed text is used unchanged — it is
not uppercased.  The normalization is idempotent, so feeding already
normalized numbers to the propagation changes nothing. -/
theorem normalization_amended :
    (∀ x : Str, _norm_doc x = amendedNormDoc x)
    ∧ (∀ (now rol old new : Str) (db : List Permiso),
        propagar_cambio_doc now rol (_norm_doc old) (_norm_doc new) db
          = propagar_cambio_doc now rol old new db) := by
  constructor
  · exact fun x => rfl
  · intro now rol old new db
    unfold propagar_cambio_doc
    simp only [norm_doc_idem]

/-! ### Suppression-marker migration -/

/-- A pre-existing suppression marker with its own reason and creator. -/
def ocEx : Oculto :=
  { rol := lit "PADRE", doc_num := lit "12345678",
    motivo := lit "ERROR DE TIPEO", creado_por := lit "JUAN",
    creado_at := lit "T0" }

/-- Admin state holding only the marker (no permits needed). -/
def stEx : AdminState := { permisos := [], ocultos := [ocEx] }

/-- C6 counterexample: migrating the suppressed identity `("PADRE",
"12345678")` to `"87654321"` produces a marker whose reason is `"MIGRADO
DESDE 12345678"` and whose creator is `"ADMIN"` — the original reason
`"ERROR DE TIPEO"` and creator `"JUAN"` are not preserved. -/
theorem marker_migration_not_preserving_cex :
    ((admin_actualizar_doc (lit "T1") (lit "PADRE") (lit "12345678")
        (lit "87654321") true stEx).2).ocultos
      = [{ rol := lit "PADRE", doc_num := lit "87654321",
           motivo := lit "MIGRADO DESDE 12345678",
           creado_por := lit "ADMIN", creado_at := lit "T1" }]
    ∧ lit "MIGRADO DESDE 12345678" ≠ ocEx.motivo
    ∧ lit "ADMIN" ≠ ocEx.creado_por := by
  exact ⟨rfl, by decide, by decide⟩

theorem mostrar_doc_filters (rol doc : Str) (t : List Oculto)
    (hr : pyupper rol ≠ []) (hd : pyupper (pytrim doc) ≠ []) :
    (mostrar_doc rol doc t).2
      = t.filter (fun o =>
          !(o.rol == pyupper rol && o.doc_num == pyupper (pytrim doc))) := by
  unfold mostrar_doc
  rw [if_neg (by simp [hr, hd])]

theorem ocultar_doc_inserts (now rol doc motivo creado : Str) (t : List Oculto)
    (hr : pyupper rol ≠ []) (hd : pyupper (pytrim doc) ≠ []) :
    (ocultar_doc now rol doc motivo creado t).2
      = if t.any (fun o => o.rol == pyupper rol && o.doc_num == pyupper (pytrim doc))
        then t
        else t ++ [{ rol := pyupper rol, doc_num := pyupper (pytrim doc),
                     motivo := pyupper (pytrim motivo),
                     creado_por := pyupper (if creado = [] then lit "USUARIO" else creado),
                     creado_at := now }] := by
  unfold ocultar_doc
  rw [if_neg (by simp [hr, hd])]
  rw [apply_ite Prod.snd]

theorem admin_ocultos_eq (now rol old new : Str) (st : AdminState)
    (hv : pyupper rol = lit "PADRE" ∨ pyupper rol = lit "MADRE"
       ∨ pyupper rol = lit "MENOR" ∨ pyupper rol = lit "HERMANO")
    (h1 : _norm_doc old ≠ []) (h2 : _norm_doc new ≠ [])
    (h3 : _norm_doc old ≠ _norm_doc new)
    (hoc : is_doc_oculto (pyupper rol) (_norm_doc old) st.ocultos = true) :
    ((admin_actualizar_doc now rol old new true st).2).ocultos
      = (ocultar_doc now (pyupper rol) (_norm_doc new)
          (lit "Migrado desde " ++ _norm_doc old) (lit "ADMIN")
          (mostrar_doc (pyupper rol) (_norm_doc old) st.ocultos).2).2 := by
  unfold admin_actualizar_doc
  dsimp only
  rw [if_neg (not_not_intro hv), if_neg (by simp [h1, h2]), if_neg h3]
  dsimp only
  rw [if_pos (show (true = true)
      ∧ is_doc_oculto (pyupper rol) (_norm_doc old) st.ocultos = true
      from ⟨rfl, hoc⟩)]

/-- C6 (amended): when a suppression marker exists for `(role, old)`, the
historic identity update removes every marker at `(role, old)` and ensures a
marker at `(role, new)`; but instead of preserving the original reason and
creator, a freshly inserted marker carries the reason `"MIGRADO DESDE
<old>"` and the creator `"ADMIN"` (and an already existing marker at
`(role, new)` is kept untouched by the INSERT OR IGNORE). -/
theorem marker_migration_amended (now rol old new : Str) (st : AdminState)
    (hv : pyupper rol = lit "PADRE" ∨ pyupper rol = lit "MADRE"
       ∨ pyupper rol = lit "MENOR" ∨ pyupper rol = lit "HERMANO")
    (h1 : _norm_doc old ≠ []) (h2 : _norm_doc new ≠ [])
    (h3 : _norm_doc old ≠ _norm_doc new)
    (hkey : pyupper (_norm_doc old) ≠ pyupper (_norm_doc new))
    (hoc : is_doc_oculto (pyupper rol) (_norm_doc old) st.ocultos = true) :
    (∀ o ∈ ((admin_actualizar_doc now rol old new true st).2).ocultos,
        ¬(o.rol = pyupper rol ∧ o.doc_num = pyupper (_norm_doc old)))
    ∧ (∃ o ∈ ((admin_actualizar_doc now rol old new true st).2).ocultos,
        o.rol = pyupper rol ∧ o.doc_num = pyupper (_norm_doc new))
    ∧ ((∀ o ∈ st.ocultos,
          ¬(o.rol = pyupper rol ∧ o.doc_num = pyupper (_norm_doc new))) →
        ∃ o ∈ ((admin_actualizar_doc now rol old new true st).2).ocultos,
          o.rol = pyupper rol ∧ o.doc_num = pyupper (_norm_doc new)
          ∧ o.motivo = pyupper (pytrim (lit "Migrado desde " ++ _norm_doc old))
          ∧ o.creado_por = lit "ADMIN" ∧ o.creado_at = now) := by
  have hpp : pyupper (pyupper rol) = pyupper rol := by
    rcases hv with h | h | h | h <;> rw [h] <;> decide
  have hrne : pyupper (pyupper rol) ≠ [] := by
    rw [hpp]
    rcases hv with h | h | h | h <;> rw [h] <;> decide
  have htro : pytrim (_norm_doc old) = _norm_doc old := norm_doc_trimmed old
  have htrn : pytrim (_norm_doc new) = _norm_doc new := norm_doc_trimmed new
  have hone : pyupper (pytrim (_norm_doc old)) ≠ [] := by
    rw [htro]
    intro e
    exact h1 (List.map_eq_nil.mp e)
  have hnne : pyupper (pytrim (_norm_doc new)) ≠ [] := by
    rw [htrn]
    intro e
    exact h2 (List.map_eq_nil.mp e)
  have hadm : pyupper (if (lit "ADMIN" : Str) = [] then lit "USUARIO"
      else lit "ADMIN") = lit "ADMIN" := by decide
  have hres : ((admin_actualizar_doc now rol old new true st).2).ocultos
      = (if (st.ocultos.filter (fun o =>
            !(o.rol == pyupper rol && o.doc_num == pyupper (_norm_doc old)))).any
            (fun o => o.rol == pyupper rol && o.doc_num == pyupper (_norm_doc new))
         then st.ocultos.filter (fun o =>
            !(o.rol == pyupper rol && o.doc_num == pyupper (_norm_doc old)))
         else st.ocultos.filter (fun o =>
            !(o.rol == pyupper rol && o.doc_num == pyupper (_norm_doc old)))
           ++ [{ rol := pyupper rol, doc_num := pyupper (_norm_doc new),
                 motivo := pyupper (pytrim (lit "Migrado desde " ++ _norm_doc old)),
                 creado_por := lit "ADMIN", creado_at := now }]) := by
    rw [admin_ocultos_eq now rol old new st hv h1 h2 h3 hoc,
        mostrar_doc_filters (pyupper rol) (_norm_doc old) st.ocultos hrne hone,
        ocultar_doc_inserts now (pyupper rol) (_norm_doc new)
          (lit "Migrado desde " ++ _norm_doc old) (lit "ADMIN") _ hrne hnne,
        hpp, htro, htrn, hadm]
  rw [hres]
  by_cases hany : ((st.ocultos.filter (fun o =>
      !(o.rol == pyupper rol && o.doc_num == pyupper (_norm_doc old)))).any
      (fun o => o.rol == pyupper rol && o.doc_num == pyupper (_norm_doc new)))
      = true
  · rw [if_pos hany]
    obtain ⟨w, hwF, hwp⟩ := List.any_eq_true.mp hany
    rw [Bool.and_eq_true, beq_iff_eq, beq_iff_eq] at hwp
    refine ⟨?_, ⟨w, hwF, hwp.1, hwp.2⟩, ?_⟩
    · intro o hoF
      rintro ⟨e1, e2⟩
      have := (List.mem_filter.mp hoF).2
      rw [e1, e2] at this
      simp at this
    · intro hnonew
      exact absurd ⟨hwp.1, hwp.2⟩ (hnonew w (List.mem_filter.mp hwF).1)
  · rw [if_neg hany]
    refine ⟨?_, ?_, ?_⟩
    · intro o hoF
      rcases List.mem_append.mp hoF with hin | hin
      · rintro ⟨e1, e2⟩
        have := (List.mem_filter.mp hin).2
        rw [e1, e2] at this
        simp at this
      · rw [List.mem_singleton] at hin
        subst hin
        rintro ⟨-, e2⟩
        exact hkey e2.symm
    · refine ⟨_, List.mem_append_right _ (List.mem_singleton.mpr rfl), rfl, rfl⟩
    · intro hnonew
      refine ⟨_, List.mem_append_right _ (List.mem_singleton.mpr rfl),
        rfl, rfl, rfl, rfl, rfl⟩

theorem marker_migration_amended_witness :
    (∀ o ∈ ((admin_actualizar_doc (lit "T1") (lit "PADRE") (lit "12345678")
        (lit "87654321") true stEx).2).ocultos,
        ¬(o.rol = pyupper (lit "PADRE")
          ∧ o.doc_num = pyupper (_norm_doc (lit "12345678"))))
    ∧ (∃ o ∈ ((admin_actualizar_doc (lit "T1") (lit "PADRE") (lit "12345678")
        (lit "87654321") true stEx).2).ocultos,
        o.rol = pyupper (lit "PADRE")
        ∧ o.doc_num = pyupper (_norm_doc (lit "87654321")))
    ∧ ((∀ o ∈ stEx.ocultos,
          ¬(o.rol = pyupper (lit "PADRE")
            ∧ o.doc_num = pyupper (_norm_doc (lit "87654321")))) →
        ∃ o ∈ ((admin_actualizar_doc (lit "T1") (lit "PADRE") (lit "12345678")
            (lit "87654321") true stEx).2).ocultos,
          o.rol = pyupper (lit "PADRE")
          ∧ o.doc_num = pyupper (_norm_doc (lit "87654321"))
          ∧ o.motivo = pyupper (pytrim (lit "Migrado desde "
              ++ _norm_doc (lit "12345678")))
          ∧ o.creado_por = lit "ADMIN" ∧ o.creado_at = lit "T1") :=
  marker_migration_amended (lit "T1") (lit "PADRE") (lit "12345678")
    (lit "87654321") stEx (Or.inl (by decide)) (by decide) (by decide)
    (by decide) (by decide) (by decide)
